import Mathlib

/-!
Verification of the financial-management subsystem of the property-management
backend (`ai_workers/ai_property_manager/services/financial_management/`).

The Python services are shallowly embedded: Django model rows become Lean
structures, the database becomes lists of rows inside a `St` state record,
monetary `Decimal` values become `ℚ`, `date` values become a calendar record
with a proleptic-Gregorian ordinal for subtraction and comparison (matching
`datetime.date.toordinal`), and `datetime` values become `ℚ` (ordinal days,
fractional part = time of day).  Functions that the source wraps in
`try/except` are embedded with `Except String` and the handler applied.
-/

deriving instance DecidableEq for Except

namespace FinMgmt

/-- Calendar date, mirroring Python `datetime.date` fields. -/
structure Date where
  year : Int
  month : Int
  day : Int
deriving DecidableEq, Repr

def isLeapYear (y : Int) : Bool :=
  y % 4 = 0 && (y % 100 ≠ 0 || y % 400 = 0)

/-- Number of days in a month of the Gregorian calendar
(behaviour of Python `calendar`/`datetime` for valid months). -/
def daysInMonth (y m : Int) : Int :=
  if m = 2 then (if isLeapYear y then 29 else 28)
  else if m = 4 ∨ m = 6 ∨ m = 9 ∨ m = 11 then 30
  else 31

/-- Cumulative days before month `m` in year `y` (0 for January). -/
def daysBeforeMonth (y m : Int) : Int :=
  (if m > 1 then 31 else 0) +
  (if m > 2 then (if isLeapYear y then 29 else 28) else 0) +
  (if m > 3 then 31 else 0) +
  (if m > 4 then 30 else 0) +
  (if m > 5 then 31 else 0) +
  (if m > 6 then 30 else 0) +
  (if m > 7 then 31 else 0) +
  (if m > 8 then 31 else 0) +
  (if m > 9 then 30 else 0) +
  (if m > 10 then 31 else 0) +
  (if m > 11 then 30 else 0)

/-- Proleptic Gregorian ordinal of a date; `toOrd ⟨1,1,1⟩ = 1`, agreeing with
Python `date.toordinal()`.  Date subtraction `(d1 - d2).days` in the source is
`toOrd d1 - toOrd d2`, and `date` comparison is ordinal comparison. -/
def Date.toOrd (d : Date) : Int :=
  365 * (d.year - 1) + (d.year - 1) / 4 - (d.year - 1) / 100 + (d.year - 1) / 400 +
    daysBeforeMonth d.year d.month + d.day

/-- `d1 < d2` for dates, as Python compares `date` objects. -/
def dateLt (d1 d2 : Date) : Bool := d1.toOrd < d2.toOrd

/-- `d1 <= d2` for dates. -/
def dateLe (d1 d2 : Date) : Bool := d1.toOrd ≤ d2.toOrd

example : Date.toOrd ⟨1, 1, 1⟩ = 1 := by decide
example : Date.toOrd ⟨1, 12, 31⟩ = 365 := by decide
example : Date.toOrd ⟨2, 1, 1⟩ = 366 := by decide

/-! ## Data model (`financial_management/models.py`)

Rows carry the fields the financial services read.  `business` is a foreign
key on `Tenant` only (the other tables reach a business through
`payment → lease → tenant`), exactly as in `models.py`. -/

structure TenantR where
  id : Nat
  businessId : Nat
  firstName : String
  lastName : String
  email : String
  isActive : Bool
  creditScore : Option Int
deriving DecidableEq, Repr

structure LeaseR where
  id : Nat
  tenantId : Nat
  propertyId : Nat
  monthlyRent : ℚ
  startDate : Date
  endDate : Date
  rentDueDay : Int
  status : String
deriving DecidableEq, Repr

structure PaymentR where
  id : Nat
  leaseId : Nat
  amount : ℚ
  paymentType : String
  paymentDate : Date
  dueDate : Date
  status : String
deriving DecidableEq, Repr

structure LateFeeR where
  id : Nat
  paymentId : Nat
  amount : ℚ
  daysOverdue : Int
  status : String
  waiveReason : String
deriving DecidableEq, Repr

structure ReminderR where
  id : Nat
  paymentId : Nat
  reminderType : String
  scheduledDate : ℚ
  sentDate : Option ℚ
  status : String
deriving DecidableEq, Repr

structure PropertyR where
  id : Nat
  title : String
deriving DecidableEq, Repr

/-- The ledger store: one list per table, plus a counter supplying fresh
primary keys for rows created by the services. -/
structure St where
  tenants : List TenantR
  leases : List LeaseR
  payments : List PaymentR
  lateFees : List LateFeeR
  reminders : List ReminderR
  properties : List PropertyR
  nextId : Nat
deriving DecidableEq, Repr

/-- Tenant that owns a payment, through `payment.lease.tenant`. -/
def paymentTenant (s : St) (p : PaymentR) : Option Nat :=
  (s.leases.find? (fun l => l.id == p.leaseId)).map (·.tenantId)

/-- `Payment.is_overdue` model property. -/
def paymentIsOverdue (today : Date) (p : PaymentR) : Bool :=
  dateLt p.dueDate today && p.status == "pending"

/-- `Payment.days_overdue` model property. -/
def paymentDaysOverdue (today : Date) (p : PaymentR) : Int :=
  if paymentIsOverdue today p then today.toOrd - p.dueDate.toOrd else 0

/-! ## Late fee rules (`LateFeeManager.__init__` and rule merging) -/

structure FeeRules where
  gracePeriodDays : Int
  flatFee : ℚ
  percentageFee : ℚ
  dailyFee : ℚ
  maxFeePercentage : ℚ
  useFlatFee : Bool
  compoundDaily : Bool
deriving DecidableEq, Repr

/-- `self.default_rules` of `LateFeeManager`. -/
def defaultRules : FeeRules :=
  { gracePeriodDays := 5
    flatFee := 50
    percentageFee := 5 / 100
    dailyFee := 5
    maxFeePercentage := 20 / 100
    useFlatFee := true
    compoundDaily := false }

/-- A partial rule override, one optional entry per key of the rules dict. -/
structure FeeRulesPatch where
  gracePeriodDays : Option Int := none
  flatFee : Option ℚ := none
  percentageFee : Option ℚ := none
  dailyFee : Option ℚ := none
  maxFeePercentage : Option ℚ := none
  useFlatFee : Option Bool := none
  compoundDaily : Option Bool := none
deriving DecidableEq, Repr

/-- `rules = {**self.default_rules, **(custom_rules or {})}`. -/
def mergeRules (d : FeeRules) (c : Option FeeRulesPatch) : FeeRules :=
  match c with
  | none => d
  | some p =>
    { gracePeriodDays := p.gracePeriodDays.getD d.gracePeriodDays
      flatFee := p.flatFee.getD d.flatFee
      percentageFee := p.percentageFee.getD d.percentageFee
      dailyFee := p.dailyFee.getD d.dailyFee
      maxFeePercentage := p.maxFeePercentage.getD d.maxFeePercentage
      useFlatFee := p.useFlatFee.getD d.useFlatFee
      compoundDaily := p.compoundDaily.getD d.compoundDaily }

/-- Fields of the successful (`applicable: True`) result dict of
`calculate_late_fee`. -/
structure FeeCalc where
  feeAmount : ℚ
  baseFee : ℚ
  dailyFees : ℚ
  daysOverdue : Int
  gracePeriodExpired : Bool
  cappedAtMaximum : Bool
  maxFeeLimit : ℚ
deriving DecidableEq, Repr

/-- The three result shapes of `calculate_late_fee`:
`err` is a `{'success': False, 'error': ...}` dict, `withinGrace` is the
`{'fee_amount': 0.00, ..., 'applicable': False}` dict (which carries no
`success` key), and `calculated` is the full `{'success': True, ...,
'applicable': True}` dict. -/
inductive CalcFeeResult where
  | err (msg : String)
  | withinGrace (daysOverdue : Int) (gracePeriodDays : Int)
  | calculated (r : FeeCalc)
deriving DecidableEq, Repr

/-- `fee_calc.get('applicable')` truthiness. -/
def CalcFeeResult.applicable : CalcFeeResult → Bool
  | .calculated _ => true
  | _ => false

/-- `fee_calc.get('success')` truthiness (the within-grace dict has no
`success` key, so `.get` yields `None`, which is falsy). -/
def CalcFeeResult.successFlag : CalcFeeResult → Bool
  | .calculated _ => true
  | _ => false

/-- The `fee_amount` entry of the result (0 in the error dict, which has
none; used only to state bounds). -/
def CalcFeeResult.feeAmount : CalcFeeResult → ℚ
  | .err _ => 0
  | .withinGrace _ _ => 0
  | .calculated r => r.feeAmount

/-- Core of `LateFeeManager.calculate_late_fee` after the payment lookup:
`rules` is the merged rule dict and `hasCustom` records whether a (truthy)
`custom_rules` argument was passed. -/
def calcFee (rules : FeeRules) (hasCustom : Bool) (p : PaymentR) (today : Date) :
    CalcFeeResult :=
  let daysOverdue : Int := today.toOrd - p.dueDate.toOrd
  if daysOverdue ≤ 0 then
    .err "Payment is not overdue"
  else if daysOverdue ≤ rules.gracePeriodDays ∧ ¬hasCustom then
    .withinGrace daysOverdue rules.gracePeriodDays
  else
    let baseFee := if rules.useFlatFee then rules.flatFee else p.amount * rules.percentageFee
    let dailyFees :=
      if rules.compoundDaily ∧ daysOverdue > rules.gracePeriodDays then
        rules.dailyFee * (daysOverdue - rules.gracePeriodDays)
      else 0
    let totalFee := baseFee + dailyFees
    let maxFee := p.amount * rules.maxFeePercentage
    let capped := totalFee > maxFee
    let totalFee := if totalFee > maxFee then maxFee else totalFee
    .calculated
      { feeAmount := totalFee
        baseFee := baseFee
        dailyFees := dailyFees
        daysOverdue := daysOverdue
        gracePeriodExpired := daysOverdue > rules.gracePeriodDays
        cappedAtMaximum := capped
        maxFeeLimit := maxFee }

/-- `LateFeeManager.calculate_late_fee(payment_id, custom_rules)`:
looks the payment up by primary key (no business scoping) and runs the
fee computation on it. -/
def calculate_late_fee (s : St) (today : Date) (paymentId : Nat)
    (customRules : Option FeeRulesPatch) : CalcFeeResult :=
  match s.payments.find? (fun p => p.id == paymentId) with
  | none => .err ("Payment not found: " ++ toString paymentId)
  | some p => calcFee (mergeRules defaultRules customRules) customRules.isSome p today

/-! ## Payment tracker (`payment_tracker.py`) -/

/-- Sum of the `amount` column over a list of payment rows
(`aggregate(Sum('amount'))` with `or Decimal('0.00')`). -/
def sumAmounts (ps : List PaymentR) : ℚ :=
  (ps.map (·.amount)).sum

/-- Sum of the `amount` column over late fee rows. -/
def sumFeeAmounts (fs : List LateFeeR) : ℚ :=
  (fs.map (·.amount)).sum

/-- `PaymentTracker._calculate_months_elapsed`. -/
def monthsElapsed (lease : LeaseR) (today : Date) : Int :=
  let months := (today.year - lease.startDate.year) * 12 + (today.month - lease.startDate.month)
  let months := if today.day ≥ lease.rentDueDay then months + 1 else months
  max 0 months

/-- Payments of a lease (`Payment.objects.filter(lease=lease)`). -/
def leasePayments (s : St) (lease : LeaseR) : List PaymentR :=
  s.payments.filter (fun p => p.leaseId == lease.id)

/-- Completed payments of a lease. -/
def leaseCompletedPayments (s : St) (lease : LeaseR) : List PaymentR :=
  (leasePayments s lease).filter (fun p => p.status == "completed")

/-- Applied late fees of a lease
(`LateFee.objects.filter(payment__lease=lease, status='applied')`). -/
def leaseAppliedFees (s : St) (lease : LeaseR) : List LateFeeR :=
  s.lateFees.filter (fun f =>
    f.status == "applied" &&
    s.payments.any (fun p => p.id == f.paymentId && p.leaseId == lease.id))

/-- Date of the latest completed payment
(`payments.filter(status='completed').order_by('-payment_date').first()`). -/
def lastCompletedPaymentDate (s : St) (lease : LeaseR) : Option Date :=
  (leaseCompletedPayments s lease).foldl
    (fun acc p =>
      match acc with
      | none => some p.paymentDate
      | some d => if p.paymentDate.toOrd > d.toOrd then some p.paymentDate else some d)
    none

/-- The values `_calculate_lease_balance` computes for a lease. -/
structure LeaseBalance where
  leaseId : Nat
  monthlyRent : ℚ
  monthsElapsed : Int
  expectedRent : ℚ
  paymentsMade : ℚ
  lateFees : ℚ
  totalOwed : ℚ
  outstandingBalance : ℚ
  lastPaymentDate : Option Date
  isCurrent : Bool
deriving DecidableEq, Repr

/-- The arithmetic part of `PaymentTracker._calculate_lease_balance`: all
totals the method computes before it builds its result dict. -/
def calcLeaseBalanceData (s : St) (lease : LeaseR) (today : Date) : LeaseBalance :=
  let paymentsMade := sumAmounts (leaseCompletedPayments s lease)
  let lateFeesTotal := sumFeeAmounts (leaseAppliedFees s lease)
  let me := monthsElapsed lease today
  let expectedRent := lease.monthlyRent * me
  let totalOwed := expectedRent + lateFeesTotal
  let outstandingBalance := totalOwed - paymentsMade
  { leaseId := lease.id
    monthlyRent := lease.monthlyRent
    monthsElapsed := me
    expectedRent := expectedRent
    paymentsMade := paymentsMade
    lateFees := lateFeesTotal
    totalOwed := totalOwed
    outstandingBalance := outstandingBalance
    lastPaymentDate := lastCompletedPaymentDate s lease
    isCurrent := outstandingBalance ≤ 0 }

/-- `PaymentTracker._calculate_lease_balance`: after computing the totals the
method builds the result dict, whose `property` entry evaluates
`lease.property.title`.  The `Lease` model has no attribute `property` (the
foreign key is named `property_listing`), so this raises
`AttributeError: 'Lease' object has no attribute 'property'` for every lease. -/
def calc_lease_balance (s : St) (lease : LeaseR) (today : Date) :
    Except String LeaseBalance :=
  let _balance := calcLeaseBalanceData s lease today
  .error "AttributeError: Lease object has no attribute property"

/-- The `balance_data` dict of `calculate_tenant_balance`. -/
structure BalanceData where
  tenantId : Nat
  tenantName : String
  tenantEmail : String
  totalBalance : ℚ
  monthlyRent : ℚ
  lateFees : ℚ
  securityDeposit : ℚ
  paymentsMade : ℚ
  outstandingAmount : ℚ
  lastPaymentDate : Option Date
  paymentStatus : String
  leases : List LeaseBalance
deriving DecidableEq, Repr

/-- `PaymentTracker._determine_payment_status`. -/
def determine_payment_status (bd : BalanceData) : String :=
  if bd.outstandingAmount ≤ 0 then "current"
  else if bd.lateFees > 0 then "overdue_with_fees"
  else "overdue"

/-- One iteration of the aggregation loop of `calculate_tenant_balance`. -/
def accumulateLease (acc : BalanceData) (lease : LeaseR) (lb : LeaseBalance) :
    BalanceData :=
  { acc with
    totalBalance := acc.totalBalance + lb.totalOwed
    monthlyRent := acc.monthlyRent + lease.monthlyRent
    lateFees := acc.lateFees + lb.lateFees
    paymentsMade := acc.paymentsMade + lb.paymentsMade
    outstandingAmount := acc.outstandingAmount + lb.outstandingBalance
    lastPaymentDate :=
      match lb.lastPaymentDate, acc.lastPaymentDate with
      | none, old => old
      | some d, none => some d
      | some d, some old => if d.toOrd > old.toOrd then some d else some old
    leases := acc.leases ++ [lb] }

/-- `PaymentTracker.calculate_tenant_balance(tenant_id)`.  The tenant is
looked up by primary key only — the `business_id` stored on the tracker is
never used, so there is no business scoping.  Each `_calculate_lease_balance`
call raises (see `calc_lease_balance`), and the surrounding `try/except`
turns the first exception into a `{'success': False, 'error': ...}` result;
a tenant with no active lease never enters the loop and gets the zeroed
balance dict. -/
def calculate_tenant_balance (s : St) (today : Date) (tenantId : Nat) :
    Except String BalanceData :=
  match s.tenants.find? (fun t => t.id == tenantId) with
  | none => .error ("Tenant not found: " ++ toString tenantId)
  | some t =>
    let activeLeases := s.leases.filter (fun l => l.tenantId == t.id && l.status == "active")
    let init : BalanceData :=
      { tenantId := t.id
        tenantName := t.firstName ++ " " ++ t.lastName
        tenantEmail := t.email
        totalBalance := 0
        monthlyRent := 0
        lateFees := 0
        securityDeposit := 0
        paymentsMade := 0
        outstandingAmount := 0
        lastPaymentDate := none
        paymentStatus := "current"
        leases := [] }
    match activeLeases.foldlM
        (fun acc lease => do
          let lb ← calc_lease_balance s lease today
          pure (accumulateLease acc lease lb)) init with
    | .error e => .error ("Balance calculation failed: " ++ e)
    | .ok bd => .ok { bd with paymentStatus := determine_payment_status bd }

/-- The summary dict `get_payment_history` builds when it succeeds. -/
structure HistorySummary where
  totalPayments : Nat
  totalAmountPaid : ℚ
  onTimePayments : Nat
  latePayments : Nat
  reliabilityScore : ℚ
deriving DecidableEq, Repr

/-- Result of `get_payment_history`: either the summary dict or the
`{'success': False, 'error': ...}` dict produced by its `except` handler. -/
inductive HistRes where
  | ok (h : HistorySummary)
  | err (msg : String)
deriving DecidableEq, Repr

/-- `payment_history.get('reliability_score', default)`. -/
def HistRes.getReliability : HistRes → ℚ → ℚ
  | .ok h, _ => h.reliabilityScore
  | .err _, d => d

/-- `payment_history.get('late_payments', default)`. -/
def HistRes.getLatePayments : HistRes → Nat → Nat
  | .ok h, _ => h.latePayments
  | .err _, d => d

/-- `payment_history.get('total_payments', default)`. -/
def HistRes.getTotalPayments : HistRes → Nat → Nat
  | .ok h, _ => h.totalPayments
  | .err _, d => d

/-- Payments of a tenant within the history window
(`Payment.objects.filter(lease__tenant=tenant, payment_date__gte=cutoff)`
with `cutoff = today - timedelta(days=months_back * 30)`). -/
def historyPayments (s : St) (tenantId : Nat) (today : Date) (monthsBack : Int) :
    List PaymentR :=
  s.payments.filter (fun p =>
    paymentTenant s p == some tenantId &&
    p.paymentDate.toOrd ≥ today.toOrd - monthsBack * 30)

/-- `PaymentTracker.get_payment_history(tenant_id, months_back)`.  The
summary loop builds a `payment_data` dict whose `property` entry evaluates
`payment.lease.property.title`; `Lease` has no attribute `property`, so the
loop raises on its first row and the `except` handler returns the error
dict.  Only a tenant with no payments in the window reaches the code after
the loop, with `total_payments = 0` and `reliability_score = 0.0`. -/
def get_payment_history (s : St) (tenantId : Nat) (today : Date)
    (monthsBack : Int) : HistRes :=
  match historyPayments s tenantId today monthsBack with
  | [] =>
    .ok { totalPayments := 0, totalAmountPaid := 0,
          onTimePayments := 0, latePayments := 0, reliabilityScore := 0 }
  | _ :: _ =>
    .err "Payment history retrieval failed: AttributeError: Lease object has no attribute property"

/-! ## Late fee manager (`late_fee_manager.py`) -/

/-- `LateFeeManager._check_auto_waiver_conditions(payment, tenant)`. -/
def check_auto_waiver_conditions (s : St) (p : PaymentR) (tenantId : Nat)
    (today : Date) : Bool × String :=
  let paymentHistory := get_payment_history s tenantId today 12
  let reliabilityScore := paymentHistory.getReliability 0
  if reliabilityScore > 95 then
    (true, "Excellent payment history - courtesy waiver")
  else if paymentHistory.getLatePayments 0 ≤ 1 then
    (true, "First late payment in 12 months - courtesy waiver")
  else if today.toOrd - p.dueDate.toOrd ≤ 3 ∧ reliabilityScore > 85 then
    (true, "Minor delay with good payment history")
  else
    (false, "")

/-- Append a late fee row created by `LateFee.objects.create`, drawing the
primary key from the state's counter. -/
def createLateFee (s : St) (paymentId : Nat) (amount : ℚ) (daysOverdue : Int)
    (status : String) (waiveReason : String) : St :=
  { s with
    lateFees := s.lateFees ++
      [{ id := s.nextId, paymentId := paymentId, amount := amount,
         daysOverdue := daysOverdue, status := status, waiveReason := waiveReason }]
    nextId := s.nextId + 1 }

/-- Body of the per-payment loop of `_process_lease_late_fees`: skip when a
`LateFee` row for the payment already exists (any status), otherwise compute
the fee and, when `success` and `applicable` are truthy, create an
`applied` or auto-waived `waived` row. -/
def processPayment (today : Date) (tenantId : Nat) (s : St) (p : PaymentR) : St :=
  if s.lateFees.any (fun f => f.paymentId == p.id) then
    s
  else
    match calculate_late_fee s today p.id none with
    | .calculated r =>
      let w := check_auto_waiver_conditions s p tenantId today
      if w.1 then
        createLateFee s p.id r.feeAmount r.daysOverdue "waived" w.2
      else
        createLateFee s p.id r.feeAmount r.daysOverdue "applied" ""
    | _ => s

/-- `LateFeeManager._process_lease_late_fees(lease, force_apply)`: iterate
the lease's pending payments past their due date.  `force_apply` is accepted
but never read in the method body. -/
def processLeaseLateFees (today : Date) (s : St) (lease : LeaseR) : St :=
  let overduePayments := s.payments.filter (fun p =>
    p.leaseId == lease.id && p.status == "pending" && dateLt p.dueDate today)
  overduePayments.foldl (processPayment today lease.tenantId) s

/-- `LateFeeManager.apply_late_fees(lease_id, force_apply)` (ledger effect).
With a `lease_id` the lease set is `filter(id=lease_id, status='active')`,
otherwise all active leases; `force_apply` is threaded to
`_process_lease_late_fees`, which ignores it. -/
def apply_late_fees (s : St) (today : Date) (leaseId : Option Nat)
    (forceApply : Bool) : St :=
  let _ := forceApply
  let leases : List LeaseR :=
    match leaseId with
    | some lid => s.leases.filter (fun l => l.id == lid && l.status == "active")
    | none => s.leases.filter (fun l => l.status == "active")
  leases.foldl (processLeaseLateFees today) s

/-- Number of `LateFee` rows attached to a payment. -/
def feeCount (s : St) (paymentId : Nat) : Nat :=
  (s.lateFees.filter (fun f => f.paymentId == paymentId)).length

/-! ## Overdue detector (`overdue_detector.py`) -/

/-- Pending payments past their due date, across every business
(`Payment.objects.filter(status='pending', due_date__lt=today)`). -/
def allOverduePayments (s : St) (today : Date) : List PaymentR :=
  s.payments.filter (fun p => p.status == "pending" && dateLt p.dueDate today)

/-- The analysis dict `detect_overdue_payments` would return; only the
fields populated before the per-payment loop matter, since the loop never
completes (see `detect_overdue_payments`). -/
structure OverdueAnalysis where
  totalOverduePayments : Nat
deriving DecidableEq, Repr

/-- `OverdueDetector.detect_overdue_payments()`.  The queryset carries
`select_related('lease__tenant', 'lease__property')`; `lease__property` is
not a field of `Lease` (the foreign key is `property_listing`), so iterating
the queryset raises `FieldError` and the `except` handler returns the
`{'success': False, 'error': ...}` dict — for every ledger state, with no
business scoping anywhere in the query. -/
def detect_overdue_payments (s : St) (today : Date) : Except String OverdueAnalysis :=
  let _overdue := allOverduePayments s today
  .error "Overdue detection failed: Invalid field name given in select_related: property"

/-- The `current_status` block of `get_tenant_risk_profile`. -/
structure CurrentStatus where
  overduePayments : Nat
  overdueAmount : ℚ
  daysOverdue : Int
deriving DecidableEq, Repr

/-- The `risk_indicators` dict of `_calculate_risk_indicators`. -/
structure RiskIndicators where
  latePaymentFrequency : ℚ
  averageDaysLate : ℚ
  paymentReliability : ℚ
  recentLateTrend : Bool
  creditRisk : String
deriving DecidableEq, Repr

/-- `OverdueDetector._calculate_risk_indicators(tenant, payment_history)`.
The history branch is guarded by `payment_history.get('total_payments', 0) > 0`;
both reachable history results (the zero-payment summary and the error dict)
give `0`, so only the credit-score block runs.  `if tenant.credit_score:` is
Python truthiness, so `None` and `0` both leave `credit_risk = 'unknown'`. -/
def calculate_risk_indicators (tenant : TenantR) (paymentHistory : HistRes) :
    RiskIndicators :=
  let base : RiskIndicators :=
    { latePaymentFrequency := 0, averageDaysLate := 0, paymentReliability := 0,
      recentLateTrend := false, creditRisk := "unknown" }
  let base :=
    if paymentHistory.getTotalPayments 0 > 0 then
      { base with
        latePaymentFrequency :=
          (paymentHistory.getLatePayments 0 : ℚ) / (paymentHistory.getTotalPayments 0 : ℚ)
        paymentReliability := paymentHistory.getReliability 0 }
    else base
  match tenant.creditScore with
  | none => base
  | some c =>
    if c = 0 then base
    else if c ≥ 750 then { base with creditRisk := "low" }
    else if c ≥ 650 then { base with creditRisk := "medium" }
    else { base with creditRisk := "high" }

/-- Python `int()` truncation toward zero on an exact rational
(`Int.div` is T-division). -/
def truncQ (q : ℚ) : Int := Int.tdiv q.num (q.den : Int)

/-- The "Current overdue status (40 points)" block of `_calculate_risk_score`. -/
def overdueStatusPoints (c : CurrentStatus) : ℚ :=
  if c.overdueAmount > 0 then
    min 20 (c.overdueAmount / 100) + min 20 (c.daysOverdue : ℚ)
  else 0

/-- The "Payment history (40 points)" block of `_calculate_risk_score`
(`reliability = payment_history.get('reliability_score', 100)`). -/
def historyPoints (paymentHistory : HistRes) : ℚ :=
  (100 - paymentHistory.getReliability 100) * (4 / 10)

/-- The "Risk indicators (20 points)" block of `_calculate_risk_score`
(as written it can add up to 10 + 10 + 5 + 5 = 30 points). -/
def indicatorPoints (ind : RiskIndicators) : ℚ :=
  ind.latePaymentFrequency * 10 + min 10 (ind.averageDaysLate / 2) +
    (if ind.recentLateTrend then 5 else 0) +
    (if ind.creditRisk == "high" then 5 else 0)

/-- `OverdueDetector._calculate_risk_score`: sum of the three blocks, then
`min(100, int(score))`. -/
def calculate_risk_score (c : CurrentStatus) (paymentHistory : HistRes)
    (ind : RiskIndicators) : Int :=
  min 100 (truncQ (overdueStatusPoints c + historyPoints paymentHistory + indicatorPoints ind))

/-- `OverdueDetector._determine_risk_level`. -/
def determine_risk_level (riskScore : Int) : String :=
  if riskScore ≥ 75 then "critical"
  else if riskScore ≥ 50 then "high"
  else if riskScore ≥ 25 then "medium"
  else "low"

/-- The risk profile dict assembled by `get_tenant_risk_profile`. -/
structure RiskProfile where
  tenantId : Nat
  creditScore : Option Int
  currentStatus : CurrentStatus
  paymentHistory : HistRes
  riskIndicators : RiskIndicators
  riskScore : Int
  riskLevel : String
deriving DecidableEq, Repr

/-- Pending overdue payments of one tenant
(`Payment.objects.filter(lease__tenant=tenant, status='pending',
due_date__lt=today)`). -/
def tenantOverduePayments (s : St) (tenantId : Nat) (today : Date) :
    List PaymentR :=
  s.payments.filter (fun p =>
    paymentTenant s p == some tenantId &&
    p.status == "pending" && dateLt p.dueDate today)

/-- `max([p.days_overdue for p in overdue_payments] + [0])`. -/
def maxDaysOverdue (today : Date) (ps : List PaymentR) : Int :=
  (ps.map (paymentDaysOverdue today)).foldl max 0

/-- `OverdueDetector.get_tenant_risk_profile(tenant_id)`: tenant looked up
by primary key only (no business scoping), 12-month payment history, current
overdue aggregates, indicators, composite score and level. -/
def get_tenant_risk_profile (s : St) (today : Date) (tenantId : Nat) :
    Except String RiskProfile :=
  match s.tenants.find? (fun t => t.id == tenantId) with
  | none => .error ("Tenant not found: " ++ toString tenantId)
  | some t =>
    let paymentHistory := get_payment_history s tenantId today 12
    let overdue := tenantOverduePayments s tenantId today
    let currentStatus : CurrentStatus :=
      { overduePayments := overdue.length
        overdueAmount := sumAmounts overdue
        daysOverdue := maxDaysOverdue today overdue }
    let indicators := calculate_risk_indicators t paymentHistory
    let score := calculate_risk_score currentStatus paymentHistory indicators
    .ok { tenantId := t.id
          creditScore := t.creditScore
          currentStatus := currentStatus
          paymentHistory := paymentHistory
          riskIndicators := indicators
          riskScore := score
          riskLevel := determine_risk_level score }

/-! ### Helper lemmas about the risk pipeline -/

theorem sumAmounts_nonneg (ps : List PaymentR) (h : ∀ p ∈ ps, 0 ≤ p.amount) :
    0 ≤ sumAmounts ps := by
  apply List.sum_nonneg
  intro x hx
  rcases List.mem_map.mp hx with ⟨p, hp, rfl⟩
  exact h p hp

theorem foldl_max_init_le (l : List Int) (a : Int) : a ≤ l.foldl max a := by
  induction l generalizing a with
  | nil => exact le_refl a
  | cons x xs ih => exact le_trans (le_max_left a x) (ih (max a x))

/-- The only two shapes `get_payment_history` can return: the zeroed summary
(no payments in the window) or the error dict (the loop raised on the first
row). -/
theorem get_payment_history_cases (s : St) (tid : Nat) (today : Date) (mb : Int) :
    get_payment_history s tid today mb =
      .ok { totalPayments := 0, totalAmountPaid := 0, onTimePayments := 0,
            latePayments := 0, reliabilityScore := 0 } ∨
    get_payment_history s tid today mb =
      .err "Payment history retrieval failed: AttributeError: Lease object has no attribute property" := by
  unfold get_payment_history
  cases historyPayments s tid today mb with
  | nil => exact Or.inl rfl
  | cons x xs => exact Or.inr rfl

theorem getTotalPayments_hist (s : St) (tid : Nat) (today : Date) (mb : Int) :
    (get_payment_history s tid today mb).getTotalPayments 0 = 0 := by
  rcases get_payment_history_cases s tid today mb with h | h <;>
    rw [h] <;> rfl

theorem indicators_degenerate (t : TenantR) (ph : HistRes)
    (h : ph.getTotalPayments 0 = 0) :
    (calculate_risk_indicators t ph).latePaymentFrequency = 0 ∧
    (calculate_risk_indicators t ph).averageDaysLate = 0 ∧
    (calculate_risk_indicators t ph).recentLateTrend = false := by
  unfold calculate_risk_indicators
  simp only [h, gt_iff_lt, lt_irrefl, if_false]
  rcases t.creditScore with _ | c
  · exact ⟨rfl, rfl, rfl⟩
  · dsimp only
    split
    · exact ⟨rfl, rfl, rfl⟩
    · split
      · exact ⟨rfl, rfl, rfl⟩
      · split
        · exact ⟨rfl, rfl, rfl⟩
        · exact ⟨rfl, rfl, rfl⟩

theorem indicatorPoints_degenerate (ind : RiskIndicators)
    (h1 : ind.latePaymentFrequency = 0) (h2 : ind.averageDaysLate = 0)
    (h3 : ind.recentLateTrend = false) :
    0 ≤ indicatorPoints ind ∧ indicatorPoints ind ≤ 20 := by
  unfold indicatorPoints
  rw [h1, h2, h3]
  norm_num
  constructor <;> split <;> norm_num

theorem overdueStatusPoints_bounds (c : CurrentStatus)
    (_h1 : 0 ≤ c.overdueAmount) (h2 : 0 ≤ c.daysOverdue) :
    0 ≤ overdueStatusPoints c ∧ overdueStatusPoints c ≤ 40 := by
  unfold overdueStatusPoints
  split
  · constructor
    · have ha : (0 : ℚ) ≤ min 20 (c.overdueAmount / 100) :=
        le_min (by norm_num) (by positivity)
      have hb : (0 : ℚ) ≤ min 20 (c.daysOverdue : ℚ) :=
        le_min (by norm_num) (by exact_mod_cast h2)
      linarith
    · have ha : min (20 : ℚ) (c.overdueAmount / 100) ≤ 20 := min_le_left _ _
      have hb : min (20 : ℚ) (c.daysOverdue : ℚ) ≤ 20 := min_le_left _ _
      linarith
  · norm_num

theorem truncQ_nonneg (q : ℚ) (h : 0 ≤ q) : 0 ≤ truncQ q := by
  unfold truncQ
  have hnum : 0 ≤ q.num := Rat.num_nonneg.mpr h
  have hden : (0 : Int) ≤ (q.den : Int) := Int.ofNat_nonneg q.den
  exact Int.tdiv_nonneg hnum hden

theorem determine_risk_level_iff (n : Int) :
    (determine_risk_level n = "critical" ↔ 75 ≤ n) ∧
    (determine_risk_level n = "high" ↔ 50 ≤ n ∧ n < 75) ∧
    (determine_risk_level n = "medium" ↔ 25 ≤ n ∧ n < 50) ∧
    (determine_risk_level n = "low" ↔ n < 25) := by
  unfold determine_risk_level
  split_ifs with h1 h2 h3 <;>
    refine ⟨?_, ?_, ?_, ?_⟩ <;> simp_all <;> omega

/-! ## Claim C7: composition and level mapping of the tenant risk score -/

/-- C7: whenever `get_tenant_risk_profile` returns a profile (payment
amounts being nonnegative, as the model's `MinValueValidator` guarantees),
the composite risk score is `min 100 (int ...)` of the sum of the three
blocks of `_calculate_risk_score` — current overdue status (0–40 points),
payment-history reliability (0–40 points) and behavioral indicators (0–20
points) — the score lies in 0–100, and the risk level is `critical` iff
score ≥ 75, `high` iff 50 ≤ score < 75, `medium` iff 25 ≤ score < 50, and
`low` otherwise. -/
theorem risk_score_composition (s : St) (today : Date) (tid : Nat)
    (profile : RiskProfile)
    (hamounts : ∀ p ∈ s.payments, 0 ≤ p.amount)
    (hprofile : get_tenant_risk_profile s today tid = .ok profile) :
    profile.riskScore =
      min 100 (truncQ (overdueStatusPoints profile.currentStatus +
        historyPoints profile.paymentHistory + indicatorPoints profile.riskIndicators)) ∧
    (0 ≤ overdueStatusPoints profile.currentStatus ∧
      overdueStatusPoints profile.currentStatus ≤ 40) ∧
    (0 ≤ historyPoints profile.paymentHistory ∧
      historyPoints profile.paymentHistory ≤ 40) ∧
    (0 ≤ indicatorPoints profile.riskIndicators ∧
      indicatorPoints profile.riskIndicators ≤ 20) ∧
    (0 ≤ profile.riskScore ∧ profile.riskScore ≤ 100) ∧
    (profile.riskLevel = "critical" ↔ 75 ≤ profile.riskScore) ∧
    (profile.riskLevel = "high" ↔ 50 ≤ profile.riskScore ∧ profile.riskScore < 75) ∧
    (profile.riskLevel = "medium" ↔ 25 ≤ profile.riskScore ∧ profile.riskScore < 50) ∧
    (profile.riskLevel = "low" ↔ profile.riskScore < 25) := by
  unfold get_tenant_risk_profile at hprofile
  cases hfind : s.tenants.find? (fun t => t.id == tid) with
  | none =>
    rw [hfind] at hprofile
    exact absurd hprofile (by simp)
  | some t =>
    rw [hfind] at hprofile
    simp only [] at hprofile
    injection hprofile with hprofile
    subst hprofile
    have hA : 0 ≤ sumAmounts (tenantOverduePayments s tid today) :=
      sumAmounts_nonneg _ (fun p hp => hamounts p (List.mem_of_mem_filter hp))
    have hD : 0 ≤ maxDaysOverdue today (tenantOverduePayments s tid today) :=
      foldl_max_init_le _ 0
    have hcur := overdueStatusPoints_bounds
      { overduePayments := (tenantOverduePayments s tid today).length
        overdueAmount := sumAmounts (tenantOverduePayments s tid today)
        daysOverdue := maxDaysOverdue today (tenantOverduePayments s tid today) }
      hA hD
    have hhist : 0 ≤ historyPoints (get_payment_history s tid today 12) ∧
        historyPoints (get_payment_history s tid today 12) ≤ 40 := by
      rcases get_payment_history_cases s tid today 12 with hph | hph <;>
        rw [hph] <;> norm_num [historyPoints, HistRes.getReliability]
    have hindf := indicators_degenerate t (get_payment_history s tid today 12)
      (getTotalPayments_hist s tid today 12)
    have hind := indicatorPoints_degenerate _ hindf.1 hindf.2.1 hindf.2.2
    have hq : 0 ≤ overdueStatusPoints
        { overduePayments := (tenantOverduePayments s tid today).length
          overdueAmount := sumAmounts (tenantOverduePayments s tid today)
          daysOverdue := maxDaysOverdue today (tenantOverduePayments s tid today) } +
        historyPoints (get_payment_history s tid today 12) +
        indicatorPoints (calculate_risk_indicators t (get_payment_history s tid today 12)) := by
      have := hcur.1; have := hhist.1; have := hind.1; linarith
    refine ⟨rfl, hcur, hhist, hind, ⟨le_min (by norm_num) (truncQ_nonneg _ hq), min_le_left _ _⟩,
      (determine_risk_level_iff _).1, (determine_risk_level_iff _).2.1,
      (determine_risk_level_iff _).2.2.1, (determine_risk_level_iff _).2.2.2⟩

/-- Ledger for the C7 witness: one tenant with no payments and no credit
score on file. -/
def stC7 : St :=
  { tenants := [{ id := 1, businessId := 1, firstName := "Ada", lastName := "One",
                  email := "ada@business1.example", isActive := true, creditScore := none }],
    leases := [], payments := [], lateFees := [], reminders := [],
    properties := [], nextId := 10 }

/-- The profile `get_tenant_risk_profile` computes on `stC7`: zeroed current
status, zeroed history (scoring 40 points via `100 - reliability`), inert
indicators, score 40, level `medium`. -/
def profileC7 : RiskProfile :=
  { tenantId := 1
    creditScore := none
    currentStatus := { overduePayments := 0, overdueAmount := 0, daysOverdue := 0 }
    paymentHistory := .ok { totalPayments := 0, totalAmountPaid := 0,
                            onTimePayments := 0, latePayments := 0, reliabilityScore := 0 }
    riskIndicators := { latePaymentFrequency := 0, averageDaysLate := 0,
                        paymentReliability := 0, recentLateTrend := false,
                        creditRisk := "unknown" }
    riskScore := 40
    riskLevel := "medium" }

theorem risk_score_composition_witness :
    profileC7.riskScore =
      min 100 (truncQ (overdueStatusPoints profileC7.currentStatus +
        historyPoints profileC7.paymentHistory + indicatorPoints profileC7.riskIndicators)) ∧
    (0 ≤ overdueStatusPoints profileC7.currentStatus ∧
      overdueStatusPoints profileC7.currentStatus ≤ 40) ∧
    (0 ≤ historyPoints profileC7.paymentHistory ∧
      historyPoints profileC7.paymentHistory ≤ 40) ∧
    (0 ≤ indicatorPoints profileC7.riskIndicators ∧
      indicatorPoints profileC7.riskIndicators ≤ 20) ∧
    (0 ≤ profileC7.riskScore ∧ profileC7.riskScore ≤ 100) ∧
    (profileC7.riskLevel = "critical" ↔ 75 ≤ profileC7.riskScore) ∧
    (profileC7.riskLevel = "high" ↔ 50 ≤ profileC7.riskScore ∧ profileC7.riskScore < 75) ∧
    (profileC7.riskLevel = "medium" ↔ 25 ≤ profileC7.riskScore ∧ profileC7.riskScore < 50) ∧
    (profileC7.riskLevel = "low" ↔ profileC7.riskScore < 25) :=
  risk_score_composition stC7 ⟨2026, 1, 20⟩ 1 profileC7
    (by intro p hp; cases hp) (by with_unfolding_all rfl)

/-! ## Reminder service (`reminder_service.py`)

`datetime` values are rational ordinal days; the midnight of date `d`
produced by `datetime.combine(d, datetime.min.time())` is `(d.toOrd : ℚ)`. -/

/-- `ReminderService._calculate_next_due_date(lease)`: next occurrence of
`rent_due_day`, rolling over to the next month; `date.replace(day=...)`
raises `ValueError` for a day that does not exist in the month, which the
source handles by falling through / clamping.  The clamp bound
`(next_month.replace(month=next_month.month % 12 + 1, day=1) -
timedelta(days=1)).day` equals the number of days in `next_month`'s month
(also in December, where the expression lands on Dec 31 of the previous
year).  For `rent_due_day < 1` the final `replace` raises `ValueError`,
which aborts the lease's scheduling inside the per-lease handler before any
write; the model is read under `rent_due_day ≥ 1` (the model field's
documented 1–31 range). -/
def calc_next_due_date (lease : LeaseR) (today : Date) : Date :=
  let rdd := lease.rentDueDay
  let thisMonthValid := 1 ≤ rdd ∧ rdd ≤ daysInMonth today.year today.month
  let thisMonthDue : Date := { today with day := rdd }
  if thisMonthValid ∧ dateLe today thisMonthDue then
    thisMonthDue
  else
    let nextMonth : Date :=
      if today.month = 12 then { year := today.year + 1, month := 1, day := 1 }
      else { today with month := today.month + 1, day := 1 }
    if 1 ≤ rdd ∧ rdd ≤ daysInMonth nextMonth.year nextMonth.month then
      { nextMonth with day := rdd }
    else
      let lastDay := daysInMonth nextMonth.year nextMonth.month
      { nextMonth with day := min rdd lastDay }

/-- The `(reminder_type, days_before)` pairs of `self.reminder_schedule`, in
dict insertion order. -/
def reminderSchedule : List (String × Int) :=
  [("early_reminder", 7), ("standard_reminder", 3),
   ("final_reminder", 1), ("overdue_reminder", 1)]

/-- `Payment.objects.get_or_create(lease=lease, due_date=next_due_date,
payment_type='rent', defaults={...})` of `_schedule_lease_reminders`:
returns the matching payment or creates a pending one with the lease's
monthly rent and `payment_date = next_due_date`. -/
def getOrCreateUpcomingPayment (s : St) (lease : LeaseR) (nextDueDate : Date) :
    PaymentR × St :=
  match s.payments.find? (fun p =>
      p.leaseId == lease.id && p.dueDate == nextDueDate && p.paymentType == "rent") with
  | some p => (p, s)
  | none =>
    let np : PaymentR :=
      { id := s.nextId, leaseId := lease.id, amount := lease.monthlyRent,
        paymentType := "rent", paymentDate := nextDueDate,
        dueDate := nextDueDate, status := "pending" }
    (np, { s with payments := s.payments ++ [np], nextId := s.nextId + 1 })

/-- `ReminderService._schedule_lease_reminders(lease)` (ledger effect plus
success flag).  After the `get_or_create` and the deletion of the payment's
pending reminders, the loop takes each non-`overdue_reminder` offset with a
future `scheduled_date` and calls `PaymentReminder.objects.create(...,
subject=self._generate_subject(...))`; `_generate_subject` reads
`payment.lease.property.title`, and `Lease` has no attribute `property`, so
the first such creation raises `AttributeError`.  The per-lease `except`
catches it and returns the failure dict, leaving the payment creation and
the deletion in place and no reminder row ever inserted.  When every offset
is already in the past the loop finishes with zero creations. -/
def schedule_lease_reminders (s : St) (lease : LeaseR) (today : Date) (now : ℚ) :
    St × Bool :=
  let nextDueDate := calc_next_due_date lease today
  let (upcomingPayment, s1) := getOrCreateUpcomingPayment s lease nextDueDate
  let s2 := { s1 with
    reminders := s1.reminders.filter (fun r =>
      ¬(r.paymentId == upcomingPayment.id && r.status == "pending")) }
  let wouldCreate := reminderSchedule.any (fun rs =>
    rs.1 ≠ "overdue_reminder" && now < ((nextDueDate.toOrd - rs.2 : Int) : ℚ))
  (s2, !wouldCreate)

/-- `ReminderService.schedule_payment_reminders(lease_id)` (ledger effect):
the lease set is `filter(id=lease_id, status='active')` or all active
leases, each processed by `_schedule_lease_reminders` with its per-lease
exception handling. -/
def schedule_payment_reminders (s : St) (leaseId : Option Nat) (today : Date)
    (now : ℚ) : St :=
  let leases : List LeaseR :=
    match leaseId with
    | some lid => s.leases.filter (fun l => l.id == lid && l.status == "active")
    | none => s.leases.filter (fun l => l.status == "active")
  leases.foldl (fun st l => (schedule_lease_reminders st l today now).1) s

/-- Scope predicate of `schedule_payment_reminders` (and `apply_late_fees`):
which leases the call processes. -/
def leaseInScope (leaseId : Option Nat) (l : LeaseR) : Bool :=
  match leaseId with
  | some lid => l.id == lid && l.status == "active"
  | none => l.status == "active"

/-! ### Lemmas about the reminder transformer -/

theorem getOrCreate_leases (s : St) (l : LeaseR) (nd : Date) :
    (getOrCreateUpcomingPayment s l nd).2.leases = s.leases := by
  unfold getOrCreateUpcomingPayment
  split <;> rfl

theorem getOrCreate_reminders (s : St) (l : LeaseR) (nd : Date) :
    (getOrCreateUpcomingPayment s l nd).2.reminders = s.reminders := by
  unfold getOrCreateUpcomingPayment
  split <;> rfl

theorem getOrCreate_payments_mono (s : St) (l : LeaseR) (nd : Date)
    (q : PaymentR) (hq : q ∈ s.payments) :
    q ∈ (getOrCreateUpcomingPayment s l nd).2.payments := by
  unfold getOrCreateUpcomingPayment
  split
  · exact hq
  · exact List.mem_append_left _ hq

/-- The state produced by `_schedule_lease_reminders`, written through the
`get_or_create` projections. -/
theorem slr_state_eq (s : St) (l : LeaseR) (today : Date) (now : ℚ) :
    (schedule_lease_reminders s l today now).1 =
      { (getOrCreateUpcomingPayment s l (calc_next_due_date l today)).2 with
        reminders :=
          (getOrCreateUpcomingPayment s l (calc_next_due_date l today)).2.reminders.filter
            (fun r =>
              ¬(r.paymentId ==
                  (getOrCreateUpcomingPayment s l (calc_next_due_date l today)).1.id &&
                r.status == "pending")) } := by
  unfold schedule_lease_reminders
  rfl

theorem slr_leases_eq (s : St) (l : LeaseR) (today : Date) (now : ℚ) :
    (schedule_lease_reminders s l today now).1.leases = s.leases := by
  rw [slr_state_eq]
  exact getOrCreate_leases s l _

theorem slr_payments_mono (s : St) (l : LeaseR) (today : Date) (now : ℚ)
    (q : PaymentR) (hq : q ∈ s.payments) :
    q ∈ (schedule_lease_reminders s l today now).1.payments := by
  rw [slr_state_eq]
  exact getOrCreate_payments_mono s l _ q hq

theorem slr_reminders_sub (s : St) (l : LeaseR) (today : Date) (now : ℚ)
    (r : ReminderR) (hr : r ∈ (schedule_lease_reminders s l today now).1.reminders) :
    r ∈ s.reminders := by
  rw [slr_state_eq] at hr
  have := List.mem_of_mem_filter hr
  rwa [getOrCreate_reminders] at this

theorem slr_reminders_keep (s : St) (l : LeaseR) (today : Date) (now : ℚ)
    (r : ReminderR) (hr : r ∈ s.reminders) (hst : r.status ≠ "pending") :
    r ∈ (schedule_lease_reminders s l today now).1.reminders := by
  rw [slr_state_eq]
  refine List.mem_filter.mpr ⟨by rwa [getOrCreate_reminders], ?_⟩
  simp [hst]

/-- One step of the `schedule_payment_reminders` loop. -/
def sprStep (today : Date) (now : ℚ) (st : St) (l : LeaseR) : St :=
  (schedule_lease_reminders st l today now).1

theorem spr_foldl_reminders_sub (today : Date) (now : ℚ) (ls : List LeaseR) :
    ∀ (s : St) (r : ReminderR), r ∈ (ls.foldl (sprStep today now) s).reminders →
      r ∈ s.reminders := by
  induction ls with
  | nil => exact fun s r hr => hr
  | cons l ls ih =>
    intro s r hr
    exact slr_reminders_sub s l today now r (ih _ r hr)

theorem spr_foldl_payments_mono (today : Date) (now : ℚ) (ls : List LeaseR) :
    ∀ (s : St) (q : PaymentR), q ∈ s.payments →
      q ∈ (ls.foldl (sprStep today now) s).payments := by
  induction ls with
  | nil => exact fun s q hq => hq
  | cons l ls ih =>
    intro s q hq
    exact ih _ q (slr_payments_mono s l today now q hq)

theorem spr_foldl_reminders_keep (today : Date) (now : ℚ) (ls : List LeaseR) :
    ∀ (s : St) (r : ReminderR), r ∈ s.reminders → r.status ≠ "pending" →
      r ∈ (ls.foldl (sprStep today now) s).reminders := by
  induction ls with
  | nil => exact fun s r hr _ => hr
  | cons l ls ih =>
    intro s r hr hst
    exact ih _ r (slr_reminders_keep s l today now r hr hst) hst

theorem slr_payments_proj (s : St) (l : LeaseR) (today : Date) (now : ℚ) :
    (schedule_lease_reminders s l today now).1.payments =
      (getOrCreateUpcomingPayment s l (calc_next_due_date l today)).2.payments := by
  rw [slr_state_eq]

/-- The rent payment row `get_or_create` inserts when none matches. -/
def upcomingPaymentRow (st : St) (l : LeaseR) (nd : Date) : PaymentR :=
  { id := st.nextId, leaseId := l.id, amount := l.monthlyRent,
    paymentType := "rent", paymentDate := nd, dueDate := nd, status := "pending" }

theorem getOrCreate_payments_cases (st : St) (l : LeaseR) (nd : Date) :
    (getOrCreateUpcomingPayment st l nd).2.payments = st.payments ∨
    (getOrCreateUpcomingPayment st l nd).2.payments =
      st.payments ++ [upcomingPaymentRow st l nd] := by
  unfold getOrCreateUpcomingPayment
  split
  · exact Or.inl rfl
  · exact Or.inr rfl

theorem getOrCreate_payments_of_none (st : St) (l : LeaseR) (nd : Date)
    (hfind : st.payments.find? (fun p =>
      p.leaseId == l.id && p.dueDate == nd && p.paymentType == "rent") = none) :
    (getOrCreateUpcomingPayment st l nd).2.payments =
      st.payments ++ [upcomingPaymentRow st l nd] := by
  unfold getOrCreateUpcomingPayment
  rw [hfind]
  rfl

/-- Reaching lemma for the C10 payment insertion: once no matching rent
payment row exists, the loop inserts exactly the `defaults` row for the
lease and it survives the remaining iterations. -/
theorem spr_foldl_creates (today : Date) (now : ℚ) (lease : LeaseR) (s0 : St)
    (habsent0 : ∀ q ∈ s0.payments, ¬(q.leaseId = lease.id ∧
      q.dueDate = calc_next_due_date lease today ∧ q.paymentType = "rent")) :
    ∀ (ls : List LeaseR) (st : St), lease ∈ ls → (ls.map (·.id)).Nodup →
      (∀ q ∈ st.payments, ¬(q.leaseId = lease.id ∧
        q.dueDate = calc_next_due_date lease today ∧ q.paymentType = "rent")) →
      ∃ p ∈ (ls.foldl (sprStep today now) st).payments,
        p ∉ s0.payments ∧ p.leaseId = lease.id ∧ p.status = "pending" ∧
        p.amount = lease.monthlyRent ∧
        p.paymentDate = calc_next_due_date lease today ∧
        p.dueDate = calc_next_due_date lease today := by
  intro ls
  induction ls with
  | nil => intro st hmem _ _; cases hmem
  | cons l ls ih =>
    intro st hmem hnodup hinv
    rcases List.mem_cons.mp hmem with rfl | htail
    · -- the head is our lease: the row is created here
      have hfind : st.payments.find? (fun p =>
          p.leaseId == lease.id && p.dueDate == calc_next_due_date lease today &&
          p.paymentType == "rent") = none := by
        rw [List.find?_eq_none]
        intro q hq hp
        simp only [Bool.and_eq_true, beq_iff_eq] at hp
        exact hinv q hq ⟨hp.1.1, hp.1.2, hp.2⟩
      have hpay : (sprStep today now st lease).payments =
          st.payments ++ [upcomingPaymentRow st lease (calc_next_due_date lease today)] := by
        rw [sprStep, slr_payments_proj, getOrCreate_payments_of_none st lease _ hfind]
      refine ⟨upcomingPaymentRow st lease (calc_next_due_date lease today), ?_, ?_, rfl, rfl, rfl, rfl, rfl⟩
      · apply spr_foldl_payments_mono today now ls
        rw [hpay]
        exact List.mem_append_right _ (List.mem_singleton.mpr rfl)
      · intro hmem0
        exact habsent0 _ hmem0 ⟨rfl, rfl, rfl⟩
    · -- the head is another lease; ids are distinct, so the invariant survives
      have hne : l.id ≠ lease.id := by
        intro h
        have hninl := (List.nodup_cons.mp hnodup).1
        have : lease.id ∈ ls.map (·.id) := List.mem_map_of_mem _ htail
        rw [← h] at this
        exact hninl this
      refine ih _ htail (List.nodup_cons.mp hnodup).2 ?_
      intro q hq
      rw [sprStep, slr_payments_proj] at hq
      rcases getOrCreate_payments_cases st l (calc_next_due_date l today) with hcase | hcase <;>
        rw [hcase] at hq
      · exact hinv q hq
      · rcases List.mem_append.mp hq with hq' | hq'
        · exact hinv q hq'
        · rw [List.mem_singleton.mp hq']
          intro hcontra
          exact hne hcontra.1

/-- The lease list `schedule_payment_reminders` iterates is the scope
filter. -/
theorem spr_as_foldl (s : St) (leaseId : Option Nat) (today : Date) (now : ℚ) :
    schedule_payment_reminders s leaseId today now =
      (s.leases.filter (leaseInScope leaseId)).foldl (sprStep today now) s := by
  unfold schedule_payment_reminders leaseInScope
  cases leaseId <;> rfl

/-! ## Claim C9: reminders are never scheduled in the past -/

/-- C9: every reminder row present after `schedule_payment_reminders` either
already existed or has a `scheduled_date` strictly after the call time `now`.
In the source this holds doubly: the loop guards each insertion with
`scheduled_date > timezone.now()`, and no insertion ever completes anyway
because `PaymentReminder.objects.create` evaluates `_generate_subject`,
which raises `AttributeError` on the missing `Lease.property` attribute (so
the second disjunct is never needed). -/
theorem reminder_never_backdated (s : St) (leaseId : Option Nat) (today : Date)
    (now : ℚ) :
    ∀ r ∈ (schedule_payment_reminders s leaseId today now).reminders,
      r ∈ s.reminders ∨ now < r.scheduledDate := by
  intro r hr
  left
  rw [spr_as_foldl] at hr
  exact spr_foldl_reminders_sub today now _ s r hr

/-- Active lease used by the reminder-claim witnesses. -/
def leaseC9 : LeaseR :=
  { id := 1, tenantId := 1, propertyId := 1, monthlyRent := 1200,
    startDate := ⟨2025, 1, 1⟩, endDate := ⟨2026, 12, 31⟩,
    rentDueDay := 1, status := "active" }

/-- Ledger for the reminder-claim witnesses: one active lease and one
already-sent reminder. -/
def stC9 : St :=
  { tenants := [], leases := [leaseC9],
    payments := [],
    lateFees := [],
    reminders := [{ id := 7, paymentId := 3, reminderType := "upcoming",
                    scheduledDate := 5, sentDate := some 6, status := "sent" }],
    properties := [], nextId := 20 }

/-- The already-sent reminder row of `stC9`. -/
def remC9 : ReminderR :=
  { id := 7, paymentId := 3, reminderType := "upcoming", scheduledDate := 5,
    sentDate := some 6, status := "sent" }

theorem reminder_never_backdated_witness :
    remC9 ∈ stC9.reminders ∨ (0 : ℚ) < remC9.scheduledDate :=
  reminder_never_backdated stC9 none ⟨2026, 1, 20⟩ 0 remC9 (by decide)

/-! ## Claim C10: `schedule_payment_reminders` is not reminder-only -/

/-- C10: `schedule_payment_reminders` (i) keeps every pre-existing payment
row, (ii) keeps every reminder whose status is not `pending`, (iii) deletes
only `pending` reminder rows, and (iv) for each in-scope active lease with
no rent payment row for the computed next due date (lease ids unique, as a
primary key), inserts a new pending Payment with the lease's monthly rent
and `payment_date` equal to that due date. -/
theorem reminder_frame_and_payment_insertion (s : St) (leaseId : Option Nat)
    (today : Date) (now : ℚ) :
    (∀ q ∈ s.payments, q ∈ (schedule_payment_reminders s leaseId today now).payments) ∧
    (∀ r ∈ s.reminders, r.status ≠ "pending" →
      r ∈ (schedule_payment_reminders s leaseId today now).reminders) ∧
    (∀ r ∈ s.reminders, r ∉ (schedule_payment_reminders s leaseId today now).reminders →
      r.status = "pending") ∧
    (∀ lease ∈ s.leases, leaseInScope leaseId lease = true →
      1 ≤ lease.rentDueDay →
      (s.leases.map (·.id)).Nodup →
      (∀ q ∈ s.payments, ¬(q.leaseId = lease.id ∧
        q.dueDate = calc_next_due_date lease today ∧ q.paymentType = "rent")) →
      ∃ p ∈ (schedule_payment_reminders s leaseId today now).payments,
        p ∉ s.payments ∧ p.leaseId = lease.id ∧ p.status = "pending" ∧
        p.amount = lease.monthlyRent ∧
        p.paymentDate = calc_next_due_date lease today ∧
        p.dueDate = calc_next_due_date lease today) := by
  rw [spr_as_foldl]
  refine ⟨?_, ?_, ?_, ?_⟩
  · intro q hq
    exact spr_foldl_payments_mono today now _ s q hq
  · intro r hr hst
    exact spr_foldl_reminders_keep today now _ s r hr hst
  · intro r hr hnot
    by_contra hst
    exact hnot (spr_foldl_reminders_keep today now _ s r hr hst)
  · intro lease hlease hscope _hrdd hnodup habsent
    refine spr_foldl_creates today now lease s habsent _ s ?_ ?_ habsent
    · exact List.mem_filter.mpr ⟨hlease, hscope⟩
    · exact List.Nodup.sublist
        (List.Sublist.map (fun l => l.id) (List.filter_sublist s.leases)) hnodup

/-- Witness for C10 at `stC9`: the pending rent payment for the next due
date (2026-02-01) is inserted for the active lease. -/
theorem reminder_frame_and_payment_insertion_witness :
    ∃ p ∈ (schedule_payment_reminders stC9 none ⟨2026, 1, 20⟩ 0).payments,
      p ∉ stC9.payments ∧ p.leaseId = leaseC9.id ∧ p.status = "pending" ∧
      p.amount = leaseC9.monthlyRent ∧
      p.paymentDate = calc_next_due_date leaseC9 ⟨2026, 1, 20⟩ ∧
      p.dueDate = calc_next_due_date leaseC9 ⟨2026, 1, 20⟩ :=
  (reminder_frame_and_payment_insertion stC9 none ⟨2026, 1, 20⟩ 0).2.2.2
    leaseC9 (by decide) (by decide) (by decide) (by decide) (by intro q hq; cases hq)

/-! ## Report generator (`report_generator.py`) -/

/-- The `revenue_summary` section (`_calculate_monthly_revenue`). -/
structure RevenueSummary where
  totalRevenue : ℚ
  rentRevenue : ℚ
  lateFeeRevenue : ℚ
  otherRevenue : ℚ
  paymentCount : Nat
  averagePayment : ℚ
deriving DecidableEq, Repr

/-- `ReportGenerator._calculate_monthly_revenue(start_date, end_date)`:
completed payments with `payment_date` in the period, across every
business. -/
def calculate_monthly_revenue (s : St) (startD endD : Date) : RevenueSummary :=
  let pays := s.payments.filter (fun p =>
    p.status == "completed" &&
    startD.toOrd ≤ p.paymentDate.toOrd && p.paymentDate.toOrd ≤ endD.toOrd)
  let total := sumAmounts pays
  let count := pays.length
  { totalRevenue := total
    rentRevenue := sumAmounts (pays.filter (fun p => p.paymentType == "rent"))
    lateFeeRevenue := sumAmounts (pays.filter (fun p => p.paymentType == "late_fee"))
    otherRevenue := sumAmounts (pays.filter (fun p =>
      p.paymentType ≠ "rent" && p.paymentType ≠ "late_fee"))
    paymentCount := count
    averagePayment := if count > 0 then total / (count : ℚ) else 0 }

/-- The `payment_analysis` section `_analyze_monthly_payments` would build. -/
structure PaymentAnalysis where
  totalDue : ℚ
  totalCollected : ℚ
  collectionRate : ℚ
  onTimePayments : Nat
  latePayments : Nat
  pendingPayments : Nat
deriving DecidableEq, Repr

/-- `ReportGenerator._analyze_monthly_payments(start_date, end_date)`: the
result dict evaluates its entries in order — `total_due`, `total_collected`
and `collection_rate` succeed, then the `on_time_payments` entry evaluates
`completed_payments.filter(payment_date__lte=models.F('due_date'))`.
`report_generator.py` never imports a name `models` (only
`from django.db.models import Sum, Count, Avg, Q`), so this raises
`NameError: name 'models' is not defined` on every call. -/
def analyze_monthly_payments (s : St) (startD endD : Date) :
    Except String PaymentAnalysis :=
  let allPayments := s.payments.filter (fun p =>
    startD.toOrd ≤ p.dueDate.toOrd && p.dueDate.toOrd ≤ endD.toOrd)
  let completedPayments := allPayments.filter (fun p => p.status == "completed")
  let totalDue := sumAmounts allPayments
  let totalCollected := sumAmounts completedPayments
  let _collectionRate : ℚ := if totalDue > 0 then totalCollected / totalDue * 100 else 0
  .error "NameError: name models is not defined"

/-- The monthly report dict of `generate_monthly_summary` (sections after
`payment_analysis` are never reached, see `generate_monthly_summary`). -/
structure MonthlyReport where
  periodYear : Int
  periodMonth : Int
  revenueSummary : RevenueSummary
  paymentAnalysis : PaymentAnalysis
deriving DecidableEq, Repr

/-- Result of `generate_monthly_summary`: the report dict or the
`{'success': False, 'error': ...}` dict from its `except` handler. -/
inductive ReportResult where
  | ok (r : MonthlyReport)
  | failure (msg : String)
deriving DecidableEq, Repr

/-- First day of the month after `(year, month)`, used for the period end
`date(year, month + 1, 1) - timedelta(days=1)`. -/
def monthEnd (year month : Int) : Date :=
  if month = 12 then { year := year, month := 12, day := 31 }
  else { year := year, month := month, day := daysInMonth year month }

/-- `ReportGenerator.generate_monthly_summary(year, month)`: the report dict
evaluates `revenue_summary` first, then `payment_analysis` raises the
`NameError` of `_analyze_monthly_payments`; the single `try/except` around
the whole method converts it into the failure dict, so no partial report is
returned and nothing is persisted. -/
def generate_monthly_summary (s : St) (year month : Int) : ReportResult :=
  let startD : Date := { year := year, month := month, day := 1 }
  let endD := monthEnd year month
  let build : Except String MonthlyReport := do
    let revenue := calculate_monthly_revenue s startD endD
    let payA ← analyze_monthly_payments s startD endD
    pure { periodYear := year, periodMonth := month,
           revenueSummary := revenue, paymentAnalysis := payA }
  match build with
  | .ok r => .ok r
  | .error e => .failure ("Monthly report generation failed: " ++ e)

/-! ## Claim C8: error handling of `generate_monthly_summary` -/

/-- Ledger for the C8 counterexample: one completed rent payment inside the
January 2026 report period, so the revenue section has real content. -/
def stC8 : St :=
  { tenants := [], leases := [],
    payments := [{ id := 1, leaseId := 1, amount := 1500, paymentType := "rent",
                   paymentDate := ⟨2026, 1, 5⟩, dueDate := ⟨2026, 1, 1⟩,
                   status := "completed" }],
    lateFees := [], reminders := [], properties := [], nextId := 2 }

/-- C8 counterexample: on `stC8` the revenue section computes successfully
(1500 of rent revenue), yet `generate_monthly_summary` returns the bare
`{'success': False, 'error': ...}` failure dict produced by its single
catch-all handler — it is never a report carrying the successfully computed
sections next to an `error` field. -/
theorem monthly_summary_not_partial :
    generate_monthly_summary stC8 2026 1 =
      .failure "Monthly report generation failed: NameError: name models is not defined" ∧
    calculate_monthly_revenue stC8 ⟨2026, 1, 1⟩ (monthEnd 2026 1) =
      { totalRevenue := 1500, rentRevenue := 1500, lateFeeRevenue := 0,
        otherRevenue := 0, paymentCount := 1, averagePayment := 1500 } ∧
    (∀ r, generate_monthly_summary stC8 2026 1 ≠ .ok r) := by
  have h : generate_monthly_summary stC8 2026 1 =
      .failure "Monthly report generation failed: NameError: name models is not defined" := by
    with_unfolding_all rfl
  refine ⟨h, by with_unfolding_all rfl, ?_⟩
  intro r hr
  rw [h] at hr
  exact ReportResult.noConfusion hr

/-- C8 amended: for every ledger state and report period,
`generate_monthly_summary` returns the
`{'success': False, 'error': 'Monthly report generation failed: ...'}` dict
and no exception escapes — the `payment_analysis` section always raises
`NameError` (unbound name `models`), the one `try/except` wrapping the whole
method swallows it, and the already-computed sections are discarded rather
than returned as a partial report.  The period hypotheses keep the
`date(year, month, 1)` constructor from raising first (an out-of-range
period also ends in a failure dict, with the `ValueError` message
instead). -/
theorem monthly_summary_always_failure (s : St) (year month : Int)
    (_hy1 : 1 ≤ year) (_hy2 : year ≤ 9999) (_hm1 : 1 ≤ month) (_hm2 : month ≤ 12) :
    generate_monthly_summary s year month =
      .failure "Monthly report generation failed: NameError: name models is not defined" := rfl

/-- Empty ledger used by the C8 witness. -/
def stC8w : St :=
  { tenants := [], leases := [], payments := [], lateFees := [],
    reminders := [], properties := [], nextId := 1 }

theorem monthly_summary_always_failure_witness :
    generate_monthly_summary stC8w 2026 1 =
      .failure "Monthly report generation failed: NameError: name models is not defined" :=
  monthly_summary_always_failure stC8w 2026 1 (by decide) (by decide) (by decide) (by decide)

/-! ## Business ownership (for the tenant-isolation claims)

All financial rows reach their owning `Business` through
`payment → lease → tenant → business`; only `Tenant` carries the foreign
key. -/

/-- Business owning a lease, through its tenant. -/
def leaseBusiness (s : St) (l : LeaseR) : Option Nat :=
  (s.tenants.find? (fun t => t.id == l.tenantId)).map (·.businessId)

/-- Business owning a payment, through its lease. -/
def paymentBusiness (s : St) (p : PaymentR) : Option Nat :=
  (s.leases.find? (fun l => l.id == p.leaseId)).bind (leaseBusiness s)

/-- Business owning a late fee, through its payment. -/
def lateFeeBusiness (s : St) (f : LateFeeR) : Option Nat :=
  (s.payments.find? (fun p => p.id == f.paymentId)).bind (paymentBusiness s)

/-- Business owning a reminder, through its payment. -/
def reminderBusiness (s : St) (r : ReminderR) : Option Nat :=
  (s.payments.find? (fun p => p.id == r.paymentId)).bind (paymentBusiness s)

/-- The rows of a ledger state owned by business `b`. -/
def businessRows (s : St) (b : Nat) :
    List TenantR × List LeaseR × List PaymentR × List LateFeeR × List ReminderR :=
  (s.tenants.filter (fun t => t.businessId == b),
   s.leases.filter (fun l => leaseBusiness s l == some b),
   s.payments.filter (fun p => paymentBusiness s p == some b),
   s.lateFees.filter (fun f => lateFeeBusiness s f == some b),
   s.reminders.filter (fun r => reminderBusiness s r == some b))

/-- Two ledger states agree on every row owned by business `b`. -/
def agreeOnBusiness (b : Nat) (s1 s2 : St) : Prop :=
  businessRows s1 b = businessRows s2 b

instance (b : Nat) (s1 s2 : St) : Decidable (agreeOnBusiness b s1 s2) :=
  inferInstanceAs (Decidable (businessRows s1 b = businessRows s2 b))

/-- The `error` entry of a result dict (`none` on a success result). -/
def errorOf {α : Type} : Except String α → Option String
  | .error m => some m
  | .ok _ => none

/-! ## Claim C2: business isolation of the calculators -/

/-- Ledger seen by business 1: its tenant, lease and payment only. -/
def stC2A : St :=
  { tenants := [{ id := 1, businessId := 1, firstName := "Ada", lastName := "One",
                  email := "ada@business1.example", isActive := true, creditScore := some 700 }],
    leases := [{ id := 1, tenantId := 1, propertyId := 1, monthlyRent := 1200,
                 startDate := ⟨2025, 1, 1⟩, endDate := ⟨2026, 12, 31⟩,
                 rentDueDay := 1, status := "active" }],
    payments := [], lateFees := [], reminders := [],
    properties := [{ id := 1, title := "Unit A" }], nextId := 10 }

/-- The same ledger with one extra tenant owned by business 2; every row of
business 1 is unchanged. -/
def stC2B : St :=
  { stC2A with
    tenants := stC2A.tenants ++
      [{ id := 2, businessId := 2, firstName := "Eve", lastName := "Two",
         email := "eve@business2.example", isActive := true, creditScore := none }] }

/-- C2 counterexample: `stC2A` and `stC2B` agree on every row of business 1,
yet `calculate_tenant_balance` — invoked with business 2's tenant id, as a
business-1 caller could — returns `Tenant not found` on one and the foreign
tenant's data (name and e-mail) on the other: the result depends on another
business's rows, and the cross-business request does not fail closed with
`NotFound`. -/
theorem business_isolation_counterexample :
    agreeOnBusiness 1 stC2A stC2B ∧
    errorOf (calculate_tenant_balance stC2A ⟨2026, 1, 20⟩ 2) = some "Tenant not found: 2" ∧
    ((calculate_tenant_balance stC2B ⟨2026, 1, 20⟩ 2).toOption.map
      (fun bd => (bd.tenantName, bd.tenantEmail))) =
        some ("Eve Two", "eve@business2.example") ∧
    calculate_tenant_balance stC2A ⟨2026, 1, 20⟩ 2 ≠
      calculate_tenant_balance stC2B ⟨2026, 1, 20⟩ 2 := by
  refine ⟨by decide, by decide, by decide, ?_⟩
  have hA : errorOf (calculate_tenant_balance stC2A ⟨2026, 1, 20⟩ 2) =
      some "Tenant not found: 2" := by decide
  have hB : errorOf (calculate_tenant_balance stC2B ⟨2026, 1, 20⟩ 2) = none := by decide
  intro h
  rw [h, hB] at hA
  cases hA

/-- C2 amended: the calculators apply no business scoping at all.
`calculate_tenant_balance` resolves the tenant by primary key alone and
returns the tenant's balance data whenever the id exists (here stated for a
tenant with no active lease, where the per-lease `AttributeError` does not
intervene), whatever business owns it; and `detect_overdue_payments` queries
pending payments of every business (its result is the same
`select_related` failure dict on every ledger state). -/
theorem no_business_scoping (s : St) (today : Date) (tid : Nat) (t : TenantR)
    (hfind : s.tenants.find? (fun x => x.id == tid) = some t)
    (hnoactive : s.leases.filter (fun l => l.tenantId == t.id && l.status == "active") = []) :
    (∃ bd, calculate_tenant_balance s today tid = .ok bd ∧
      bd.tenantId = t.id ∧ bd.tenantName = t.firstName ++ " " ++ t.lastName ∧
      bd.tenantEmail = t.email) ∧
    (∀ (s2 : St) (d2 : Date), detect_overdue_payments s2 d2 =
      .error "Overdue detection failed: Invalid field name given in select_related: property") := by
  constructor
  · unfold calculate_tenant_balance
    rw [hfind]
    dsimp only
    rw [hnoactive]
    exact ⟨_, rfl, rfl, rfl, rfl⟩
  · intro s2 d2
    rfl

/-- Witness for the amended C2: business 2's leaseless tenant in `stC2B` is
readable by id from any caller. -/
theorem no_business_scoping_witness :
    (∃ bd, calculate_tenant_balance stC2B ⟨2026, 1, 20⟩ 2 = .ok bd ∧
      bd.tenantId = 2 ∧ bd.tenantName = "Eve" ++ " " ++ "Two" ∧
      bd.tenantEmail = "eve@business2.example") ∧
    (∀ (s2 : St) (d2 : Date), detect_overdue_payments s2 d2 =
      .error "Overdue detection failed: Invalid field name given in select_related: property") :=
  no_business_scoping stC2B ⟨2026, 1, 20⟩ 2
    { id := 2, businessId := 2, firstName := "Eve", lastName := "Two",
      email := "eve@business2.example", isActive := true, creditScore := none }
    (by decide) (by decide)

/-! ## Claim C3: balance conservation in `_calculate_lease_balance` -/

/-- Ledger with one tenant and one active lease for the C3 evaluation. -/
def stC3 : St :=
  { tenants := [{ id := 1, businessId := 1, firstName := "Ada", lastName := "One",
                  email := "ada@business1.example", isActive := true, creditScore := some 700 }],
    leases := [{ id := 1, tenantId := 1, propertyId := 1, monthlyRent := 1500,
                 startDate := ⟨2025, 10, 1⟩, endDate := ⟨2026, 12, 31⟩,
                 rentDueDay := 1, status := "active" }],
    payments := [], lateFees := [], reminders := [],
    properties := [{ id := 1, title := "Unit A" }], nextId := 10 }

/-- C3: the totals `_calculate_lease_balance` computes always satisfy
`outstanding_balance + Σ(completed payments) = monthly_rent * months_elapsed
+ Σ(applied late fees)` — but the method then builds its result dict, whose
`property` entry reads the nonexistent attribute `lease.property`, so
`calculate_tenant_balance` raises internally and returns the
`{'success': False, 'error': ...}` dict for every tenant that has an active
lease; the conserved balance is never returned. -/
theorem balance_conservation :
    (∀ (s : St) (lease : LeaseR) (today : Date),
      (calcLeaseBalanceData s lease today).outstandingBalance +
          sumAmounts (leaseCompletedPayments s lease) =
        lease.monthlyRent * (monthsElapsed lease today : ℚ) +
          sumFeeAmounts (leaseAppliedFees s lease)) ∧
    errorOf (calculate_tenant_balance stC3 ⟨2026, 1, 20⟩ 1) =
      some "Balance calculation failed: AttributeError: Lease object has no attribute property" := by
  constructor
  · intro s lease today
    unfold calcLeaseBalanceData
    ring
  · decide

/-! ## Claim C4: grace-period boundary of `calculate_late_fee` -/

/-- C4: under the default rule set with no custom override, a payment exactly
`grace_period_days` (= 5) past its due date gets the within-grace result with
fee amount 0 and `applicable: False`; a payment `grace_period_days + 1` days
past due gets an applicable result with a nonzero fee. -/
theorem grace_period_boundary (s : St) (today : Date) (pid : Nat) (p : PaymentR)
    (hfind : s.payments.find? (fun q => q.id == pid) = some p)
    (hamt : 0 < p.amount) :
    (today.toOrd - p.dueDate.toOrd = 5 →
      calculate_late_fee s today pid none = .withinGrace 5 5 ∧
      (CalcFeeResult.withinGrace 5 5).feeAmount = 0 ∧
      (CalcFeeResult.withinGrace 5 5).applicable = false) ∧
    (today.toOrd - p.dueDate.toOrd = 6 →
      ∃ r, calculate_late_fee s today pid none = .calculated r ∧
        0 < r.feeAmount ∧ (CalcFeeResult.calculated r).applicable = true) := by
  unfold calculate_late_fee
  rw [hfind]
  constructor
  · intro h5
    refine ⟨?_, rfl, rfl⟩
    simp only [calcFee, mergeRules, defaultRules, h5]
    norm_num
  · intro h6
    simp only [calcFee, mergeRules, defaultRules, h6, Option.isSome_none]
    norm_num
    constructor
    · split
      · exact mul_pos hamt (by norm_num)
      · norm_num
    · rfl

/-- Witness ledger for C4: one payment due 2026-01-10, evaluated on
2026-01-15 (5 days late) and 2026-01-16 (6 days late). -/
def stC4 : St :=
  { tenants := [], leases := [], payments :=
      [{ id := 1, leaseId := 1, amount := 1000, paymentType := "rent",
         paymentDate := ⟨2026, 1, 10⟩, dueDate := ⟨2026, 1, 10⟩, status := "pending" }],
    lateFees := [], reminders := [], properties := [], nextId := 2 }

/-- The pending payment of `stC4`. -/
def payC4 : PaymentR :=
  { id := 1, leaseId := 1, amount := 1000, paymentType := "rent",
    paymentDate := ⟨2026, 1, 10⟩, dueDate := ⟨2026, 1, 10⟩, status := "pending" }

theorem grace_period_boundary_witness :
    (calculate_late_fee stC4 ⟨2026, 1, 15⟩ 1 none = .withinGrace 5 5 ∧
      (CalcFeeResult.withinGrace 5 5).feeAmount = 0 ∧
      (CalcFeeResult.withinGrace 5 5).applicable = false) ∧
    (∃ r, calculate_late_fee stC4 ⟨2026, 1, 16⟩ 1 none = .calculated r ∧
        0 < r.feeAmount ∧ (CalcFeeResult.calculated r).applicable = true) :=
  ⟨(grace_period_boundary stC4 ⟨2026, 1, 15⟩ 1 payC4 (by decide) (by norm_num [payC4])).1
      (by decide),
   (grace_period_boundary stC4 ⟨2026, 1, 16⟩ 1 payC4 (by decide) (by norm_num [payC4])).2
      (by decide)⟩

/-! ## Claim C5: fee cap of `calculate_late_fee` -/

/-- Helper: capping a total at `m` never exceeds `m`. -/
theorem capped_value_le (t m : ℚ) : (if t > m then m else t) ≤ m := by
  split
  · exact le_refl m
  · exact not_lt.mp (by assumption)

/-- C5: for every overdue payment and every (merged) rule set, the fee amount
of the result is at most `payment.amount * max_fee_percentage`, and on the
applicable result `capped_at_maximum` is set exactly when the uncapped total
`base_fee + daily_fees` exceeded the cap. -/
theorem fee_cap (rules : FeeRules) (hasCustom : Bool) (p : PaymentR) (today : Date)
    (hover : 1 ≤ today.toOrd - p.dueDate.toOrd)
    (hamt : 0 ≤ p.amount) (hmax : 0 ≤ rules.maxFeePercentage) :
    (calcFee rules hasCustom p today).feeAmount ≤ p.amount * rules.maxFeePercentage ∧
    (∀ r, calcFee rules hasCustom p today = .calculated r →
      (r.cappedAtMaximum = true ↔
        p.amount * rules.maxFeePercentage < r.baseFee + r.dailyFees)) := by
  unfold calcFee
  have hnot : ¬(today.toOrd - p.dueDate.toOrd ≤ 0) := by omega
  simp only [hnot, if_false]
  split
  · exact ⟨mul_nonneg hamt hmax, by intro r h; cases h⟩
  · constructor
    · simp only [CalcFeeResult.feeAmount]
      exact capped_value_le _ _
    · intro r h
      injection h with h
      subst h
      simp only [decide_eq_true_eq]

/-- Rule set used by the C5 witness: percentage base fee with daily
compounding. -/
def rulesC5 : FeeRules :=
  { gracePeriodDays := 5, flatFee := 50, percentageFee := 5 / 100,
    dailyFee := 5, maxFeePercentage := 20 / 100, useFlatFee := false,
    compoundDaily := true }

/-- Payment used by the C5 witness: 1000 due 2026-01-01, evaluated on
2026-02-15 (45 days late). -/
def payC5 : PaymentR :=
  { id := 1, leaseId := 1, amount := 1000, paymentType := "rent",
    paymentDate := ⟨2026, 1, 1⟩, dueDate := ⟨2026, 1, 1⟩, status := "pending" }

/-- Witness for C5 at a concrete compounding rule set and payment. -/
theorem fee_cap_witness :
    (calcFee rulesC5 true payC5 ⟨2026, 2, 15⟩).feeAmount ≤
      payC5.amount * rulesC5.maxFeePercentage ∧
    (∀ r, calcFee rulesC5 true payC5 ⟨2026, 2, 15⟩ = .calculated r →
      (r.cappedAtMaximum = true ↔
        payC5.amount * rulesC5.maxFeePercentage < r.baseFee + r.dailyFees)) :=
  fee_cap rulesC5 true payC5 ⟨2026, 2, 15⟩ (by decide) (by norm_num [payC5])
    (by norm_num [rulesC5])

/-! ## Claim C6: `calculate_late_fee` on a non-overdue payment -/

/-- Ledger with a single payment due 2026-01-20 (not yet overdue on the
evaluation dates used below). -/
def stC6 : St :=
  { tenants := [], leases := [], payments :=
      [{ id := 1, leaseId := 1, amount := 1000, paymentType := "rent",
         paymentDate := ⟨2026, 1, 20⟩, dueDate := ⟨2026, 1, 20⟩, status := "pending" }],
    lateFees := [], reminders := [], properties := [], nextId := 2 }

/-- C6 counterexample: on a payment whose due date is today (concretely,
due 2026-01-20 evaluated on 2026-01-20), `calculate_late_fee` returns the
`{'success': False, 'error': 'Payment is not overdue'}` dict — an error
result, not the distinct not-applicable result shape — refuting the claim
that a non-overdue payment yields a non-error "not applicable" result. -/
theorem non_overdue_returns_error_dict :
    calculate_late_fee stC6 ⟨2026, 1, 20⟩ 1 none = .err "Payment is not overdue" ∧
    (calculate_late_fee stC6 ⟨2026, 1, 20⟩ 1 none).successFlag = false ∧
    (∀ d g, CalcFeeResult.err "Payment is not overdue" ≠ .withinGrace d g) := by
  refine ⟨by decide, by decide, ?_⟩
  intro d g h
  cases h

/-- C6 amended: for every payment whose due date is today or later,
`calculate_late_fee` returns the structured error result
`{'success': False, 'error': 'Payment is not overdue'}` (no exception
escapes); the not-applicable negative result is produced only for overdue
payments within the grace period. -/
theorem non_overdue_amended (s : St) (today : Date) (pid : Nat) (p : PaymentR)
    (customRules : Option FeeRulesPatch)
    (hfind : s.payments.find? (fun q => q.id == pid) = some p)
    (hdue : today.toOrd ≤ p.dueDate.toOrd) :
    calculate_late_fee s today pid customRules = .err "Payment is not overdue" := by
  unfold calculate_late_fee
  rw [hfind]
  unfold calcFee
  have h : today.toOrd - p.dueDate.toOrd ≤ 0 := by omega
  simp [h]

/-- Witness for the amended C6 at the concrete ledger of the counterexample's
input shape, with a strictly future due date. -/
theorem non_overdue_amended_witness :
    calculate_late_fee stC6 ⟨2026, 1, 15⟩ 1 none = .err "Payment is not overdue" :=
  non_overdue_amended stC6 ⟨2026, 1, 15⟩ 1
    { id := 1, leaseId := 1, amount := 1000, paymentType := "rent",
      paymentDate := ⟨2026, 1, 20⟩, dueDate := ⟨2026, 1, 20⟩, status := "pending" }
    none (by decide) (by decide)

/-! ## Lemmas about late-fee application (for claim C1) -/

theorem feeCount_createLateFee (s : St) (pid qid : Nat) (amount : ℚ) (d : Int)
    (status wr : String) :
    feeCount (createLateFee s qid amount d status wr) pid =
      feeCount s pid + (if qid = pid then 1 else 0) := by
  by_cases h : qid = pid
  · subst h
    simp [feeCount, createLateFee, List.filter_append]
  · simp [feeCount, createLateFee, List.filter_append, h]

theorem any_fee_iff (s : St) (pid : Nat) :
    (s.lateFees.any (fun f => f.paymentId == pid)) = true ↔ 0 < feeCount s pid := by
  constructor
  · intro h
    rcases List.any_eq_true.mp h with ⟨f, hf, hpf⟩
    exact List.length_pos_of_mem (List.mem_filter.mpr ⟨hf, hpf⟩)
  · intro h
    obtain ⟨f, hf⟩ := List.exists_mem_of_length_pos h
    have hm := List.mem_filter.mp hf
    exact List.any_eq_true.mpr ⟨f, hm.1, hm.2⟩

theorem processPayment_payments (today : Date) (tid : Nat) (s : St) (q : PaymentR) :
    (processPayment today tid s q).payments = s.payments := by
  unfold processPayment
  split
  · rfl
  · split <;> try rfl
    dsimp only
    split <;> rfl

theorem processPayment_leases (today : Date) (tid : Nat) (s : St) (q : PaymentR) :
    (processPayment today tid s q).leases = s.leases := by
  unfold processPayment
  split
  · rfl
  · split <;> try rfl
    dsimp only
    split <;> rfl

theorem processPayment_feeCount_ge (today : Date) (tid : Nat) (s : St)
    (q : PaymentR) (pid : Nat) (h : 0 < feeCount s pid) :
    feeCount (processPayment today tid s q) pid = feeCount s pid := by
  unfold processPayment
  split
  · rfl
  · rename_i hany
    have hq : q.id ≠ pid := by
      intro hqe
      subst hqe
      exact hany ((any_fee_iff s q.id).mpr h)
    split <;> try rfl
    dsimp only
    split <;> (rw [feeCount_createLateFee]; simp [hq])

theorem processPayment_feeCount_le (today : Date) (tid : Nat) (s : St)
    (q : PaymentR) (pid : Nat) :
    feeCount (processPayment today tid s q) pid ≤ max (feeCount s pid) 1 := by
  unfold processPayment
  split
  · exact le_max_left _ _
  · rename_i hany
    split <;> try exact le_max_left _ _
    dsimp only
    by_cases hq : q.id = pid
    · subst hq
      have h0 : feeCount s q.id = 0 := by
        by_contra h0
        exact hany ((any_fee_iff s q.id).mpr (Nat.pos_of_ne_zero h0))
      split <;> (rw [feeCount_createLateFee]; simp [h0])
    · split <;> (rw [feeCount_createLateFee]; simp [hq])

theorem foldl_process_feeCount_ge (today : Date) (tid : Nat) (l : List PaymentR) :
    ∀ (s : St) (pid : Nat), 0 < feeCount s pid →
      feeCount (l.foldl (processPayment today tid) s) pid = feeCount s pid := by
  induction l with
  | nil => intro s pid _; rfl
  | cons q l ih =>
    intro s pid h
    rw [List.foldl_cons]
    have hstep := processPayment_feeCount_ge today tid s q pid h
    rw [ih _ pid (by rw [hstep]; exact h), hstep]

theorem foldl_process_feeCount_le (today : Date) (tid : Nat) (l : List PaymentR) :
    ∀ (s : St) (pid : Nat),
      feeCount (l.foldl (processPayment today tid) s) pid ≤ max (feeCount s pid) 1 := by
  induction l with
  | nil => intro s pid; exact le_max_left _ _
  | cons q l ih =>
    intro s pid
    rw [List.foldl_cons]
    calc feeCount (l.foldl (processPayment today tid) (processPayment today tid s q)) pid
        ≤ max (feeCount (processPayment today tid s q) pid) 1 := ih _ pid
      _ ≤ max (max (feeCount s pid) 1) 1 :=
          max_le_max (processPayment_feeCount_le today tid s q pid) (le_refl 1)
      _ = max (feeCount s pid) 1 := by rw [max_assoc, max_self]

theorem foldl_process_payments (today : Date) (tid : Nat) (l : List PaymentR) :
    ∀ s : St, (l.foldl (processPayment today tid) s).payments = s.payments := by
  induction l with
  | nil => intro s; rfl
  | cons q l ih =>
    intro s
    rw [List.foldl_cons, ih, processPayment_payments]

theorem foldl_process_leases (today : Date) (tid : Nat) (l : List PaymentR) :
    ∀ s : St, (l.foldl (processPayment today tid) s).leases = s.leases := by
  induction l with
  | nil => intro s; rfl
  | cons q l ih =>
    intro s
    rw [List.foldl_cons, ih, processPayment_leases]

theorem find?_eq_of_nodup (l : List PaymentR) (p : PaymentR) (hmem : p ∈ l)
    (hnodup : (l.map (·.id)).Nodup) : l.find? (fun q => q.id == p.id) = some p := by
  induction l with
  | nil => cases hmem
  | cons x l ih =>
    rcases List.mem_cons.mp hmem with rfl | htail
    · rw [List.find?_cons_of_pos _ (by simp)]
    · have hne : x.id ≠ p.id := by
        intro h
        refine (List.nodup_cons.mp hnodup).1 ?_
        show x.id ∈ List.map (fun y => y.id) l
        rw [h]
        exact List.mem_map_of_mem _ htail
      rw [List.find?_cons_of_neg _ (by simp [hne])]
      exact ih htail (List.nodup_cons.mp hnodup).2

theorem calcFee_calculated (p : PaymentR) (today : Date)
    (h6 : 6 ≤ today.toOrd - p.dueDate.toOrd) :
    ∃ r, calcFee defaultRules false p today = .calculated r := by
  unfold calcFee
  have h1 : ¬(today.toOrd - p.dueDate.toOrd ≤ 0) := by omega
  have h2 : ¬(today.toOrd - p.dueDate.toOrd ≤ defaultRules.gracePeriodDays ∧
      ¬(false : Bool) = true) := by
    intro hcon
    have := hcon.1
    norm_num [defaultRules] at this
    omega
  rw [if_neg h1, if_neg h2]
  exact ⟨_, rfl⟩

theorem processPayment_creates (today : Date) (tid : Nat) (s : St) (p : PaymentR)
    (h0 : feeCount s p.id = 0)
    (hfind : s.payments.find? (fun q => q.id == p.id) = some p)
    (h6 : 6 ≤ today.toOrd - p.dueDate.toOrd) :
    0 < feeCount (processPayment today tid s p) p.id := by
  unfold processPayment
  have hany : ¬((s.lateFees.any fun f => f.paymentId == p.id) = true) := by
    rw [any_fee_iff]
    omega
  rw [if_neg hany]
  unfold calculate_late_fee
  rw [hfind]
  simp only [mergeRules, Option.isSome_none]
  obtain ⟨r, hr⟩ := calcFee_calculated p today h6
  rw [hr]
  dsimp only
  split <;> (rw [feeCount_createLateFee]; simp [h0])

theorem foldl_process_reaches (today : Date) (tid : Nat) (l : List PaymentR) :
    ∀ (s : St) (p : PaymentR), p ∈ l → p ∈ s.payments →
      (s.payments.map (·.id)).Nodup → 6 ≤ today.toOrd - p.dueDate.toOrd →
      0 < feeCount (l.foldl (processPayment today tid) s) p.id := by
  induction l with
  | nil => intro s p hp _ _ _; cases hp
  | cons q l ih =>
    intro s p hp hmem hnodup h6
    rw [List.foldl_cons]
    rcases List.mem_cons.mp hp with rfl | htail
    · rcases Nat.eq_zero_or_pos (feeCount s p.id) with h0 | hpos
      · have h1 : 0 < feeCount (processPayment today tid s p) p.id :=
          processPayment_creates today tid s p h0 (find?_eq_of_nodup _ p hmem hnodup) h6
        rw [foldl_process_feeCount_ge today tid l _ _ h1]
        exact h1
      · have heq := processPayment_feeCount_ge today tid s p p.id hpos
        rw [foldl_process_feeCount_ge today tid l _ _ (by rw [heq]; exact hpos), heq]
        exact hpos
    · exact ih _ p htail (by rw [processPayment_payments]; exact hmem)
        (by rw [processPayment_payments]; exact hnodup) h6

theorem processLease_reaches (today : Date) (s : St) (lease : LeaseR) (p : PaymentR)
    (hlid : p.leaseId = lease.id) (hmem : p ∈ s.payments) (hpend : p.status = "pending")
    (hnodup : (s.payments.map (·.id)).Nodup)
    (h6 : 6 ≤ today.toOrd - p.dueDate.toOrd) :
    0 < feeCount (processLeaseLateFees today s lease) p.id := by
  unfold processLeaseLateFees
  apply foldl_process_reaches today lease.tenantId _ s p _ hmem hnodup h6
  refine List.mem_filter.mpr ⟨hmem, ?_⟩
  have hlt : dateLt p.dueDate today = true := decide_eq_true (by
    unfold Date.toOrd at h6 ⊢
    omega)
  simp [hlid, hpend, hlt]

theorem foldl_lease_feeCount_ge (today : Date) (ls : List LeaseR) :
    ∀ (s : St) (pid : Nat), 0 < feeCount s pid →
      feeCount (ls.foldl (processLeaseLateFees today) s) pid = feeCount s pid := by
  induction ls with
  | nil => intro s pid _; rfl
  | cons l ls ih =>
    intro s pid h
    rw [List.foldl_cons]
    have hstep : feeCount (processLeaseLateFees today s l) pid = feeCount s pid :=
      foldl_process_feeCount_ge today l.tenantId _ s pid h
    rw [ih _ pid (by rw [hstep]; exact h), hstep]

theorem foldl_lease_feeCount_le (today : Date) (ls : List LeaseR) :
    ∀ (s : St) (pid : Nat),
      feeCount (ls.foldl (processLeaseLateFees today) s) pid ≤ max (feeCount s pid) 1 := by
  induction ls with
  | nil => intro s pid; exact le_max_left _ _
  | cons l ls ih =>
    intro s pid
    rw [List.foldl_cons]
    calc feeCount (ls.foldl (processLeaseLateFees today) (processLeaseLateFees today s l)) pid
        ≤ max (feeCount (processLeaseLateFees today s l) pid) 1 := ih _ pid
      _ ≤ max (max (feeCount s pid) 1) 1 :=
          max_le_max (foldl_process_feeCount_le today l.tenantId _ s pid) (le_refl 1)
      _ = max (feeCount s pid) 1 := by rw [max_assoc, max_self]

theorem foldl_lease_payments (today : Date) (ls : List LeaseR) :
    ∀ s : St, (ls.foldl (processLeaseLateFees today) s).payments = s.payments := by
  induction ls with
  | nil => intro s; rfl
  | cons l ls ih =>
    intro s
    rw [List.foldl_cons, ih]
    exact foldl_process_payments today l.tenantId _ s

theorem foldl_lease_leases (today : Date) (ls : List LeaseR) :
    ∀ s : St, (ls.foldl (processLeaseLateFees today) s).leases = s.leases := by
  induction ls with
  | nil => intro s; rfl
  | cons l ls ih =>
    intro s
    rw [List.foldl_cons, ih]
    exact foldl_process_leases today l.tenantId _ s

theorem foldl_lease_reaches (today : Date) (ls : List LeaseR) :
    ∀ (s : St) (lease : LeaseR) (p : PaymentR), lease ∈ ls → p.leaseId = lease.id →
      p ∈ s.payments → p.status = "pending" → (s.payments.map (·.id)).Nodup →
      6 ≤ today.toOrd - p.dueDate.toOrd →
      0 < feeCount (ls.foldl (processLeaseLateFees today) s) p.id := by
  induction ls with
  | nil => intro s lease p hl _ _ _ _ _; cases hl
  | cons l ls ih =>
    intro s lease p hl hlid hmem hpend hnodup h6
    rw [List.foldl_cons]
    rcases List.mem_cons.mp hl with rfl | htail
    · have h1 := processLease_reaches today s lease p hlid hmem hpend hnodup h6
      rw [foldl_lease_feeCount_ge today ls _ _ h1]
      exact h1
    · have hpays : (processLeaseLateFees today s l).payments = s.payments :=
        foldl_process_payments today l.tenantId _ s
      exact ih _ lease p htail hlid (by rw [hpays]; exact hmem)
        hpend (by rw [hpays]; exact hnodup) h6

/-- `apply_late_fees` as a fold over the in-scope leases. -/
theorem apply_as_foldl (s : St) (today : Date) (leaseFilter : Option Nat)
    (force : Bool) :
    apply_late_fees s today leaseFilter force =
      (s.leases.filter (leaseInScope leaseFilter)).foldl (processLeaseLateFees today) s := by
  unfold apply_late_fees leaseInScope
  cases leaseFilter <;> rfl

theorem apply_feeCount_ge (s : St) (today : Date) (leaseFilter : Option Nat)
    (force : Bool) (pid : Nat) (h : 0 < feeCount s pid) :
    feeCount (apply_late_fees s today leaseFilter force) pid = feeCount s pid := by
  rw [apply_as_foldl]
  exact foldl_lease_feeCount_ge today _ s pid h

theorem apply_feeCount_le (s : St) (today : Date) (leaseFilter : Option Nat)
    (force : Bool) (pid : Nat) :
    feeCount (apply_late_fees s today leaseFilter force) pid ≤ max (feeCount s pid) 1 := by
  rw [apply_as_foldl]
  exact foldl_lease_feeCount_le today _ s pid

theorem apply_payments_eq (s : St) (today : Date) (leaseFilter : Option Nat)
    (force : Bool) :
    (apply_late_fees s today leaseFilter force).payments = s.payments := by
  rw [apply_as_foldl]
  exact foldl_lease_payments today _ s

theorem apply_reaches (s : St) (today : Date) (leaseFilter : Option Nat)
    (force : Bool) (p : PaymentR) (lease : LeaseR)
    (hl : lease ∈ s.leases) (hscope : leaseInScope leaseFilter lease = true)
    (hlid : p.leaseId = lease.id) (hmem : p ∈ s.payments) (hpend : p.status = "pending")
    (hnodup : (s.payments.map (·.id)).Nodup)
    (h6 : 6 ≤ today.toOrd - p.dueDate.toOrd) :
    0 < feeCount (apply_late_fees s today leaseFilter force) p.id := by
  rw [apply_as_foldl]
  exact foldl_lease_reaches today _ s lease p (List.mem_filter.mpr ⟨hl, hscope⟩)
    hlid hmem hpend hnodup h6

/-! ## Claim C1: idempotency of `apply_late_fees` -/

/-- Ledger for the C1 counterexample: an overdue pending payment only 3 days
past due (inside the 5-day default grace period). -/
def stC1 : St :=
  { tenants := [{ id := 1, businessId := 1, firstName := "Ada", lastName := "One",
                  email := "ada@business1.example", isActive := true, creditScore := some 700 }],
    leases := [{ id := 1, tenantId := 1, propertyId := 1, monthlyRent := 1200,
                 startDate := ⟨2025, 1, 1⟩, endDate := ⟨2026, 12, 31⟩,
                 rentDueDay := 1, status := "active" }],
    payments := [{ id := 1, leaseId := 1, amount := 1200, paymentType := "rent",
                   paymentDate := ⟨2026, 1, 17⟩, dueDate := ⟨2026, 1, 17⟩,
                   status := "pending" }],
    lateFees := [], reminders := [], properties := [{ id := 1, title := "Unit A" }],
    nextId := 10 }

/-- C1 counterexample: payment 1 of `stC1` is an overdue pending payment
(3 days past due on 2026-01-20), yet two successive `apply_late_fees` runs —
with either `force_apply` value — leave **zero** LateFee rows for it, not
exactly one: within the grace period `calculate_late_fee` reports the fee
inapplicable and no row is ever created, and `force_apply` is ignored by
`_process_lease_late_fees`. -/
theorem late_fee_idempotency_counterexample :
    (stC1.payments.filter (fun p =>
      p.leaseId == 1 && p.status == "pending" && dateLt p.dueDate ⟨2026, 1, 20⟩)).length = 1 ∧
    feeCount (apply_late_fees (apply_late_fees stC1 ⟨2026, 1, 20⟩ none true)
      ⟨2026, 1, 20⟩ none false) 1 = 0 ∧
    feeCount (apply_late_fees (apply_late_fees stC1 ⟨2026, 1, 20⟩ none true)
      ⟨2026, 1, 20⟩ none false) 1 ≠ 1 := by
  refine ⟨by decide, by decide, by decide⟩

/-- C1 amended: (i) for every payment that already has a LateFee row (of any
status), `apply_late_fees` creates no additional LateFee for it, regardless
of `force_apply`; (ii) two successive runs over a payment without a fee
leave **at most** one LateFee row; and (iii) exactly one row when the fee is
applicable — the payment is pending and more than `grace_period_days` (= 5,
default rules) past due, its active lease is in the call's scope, and
payment ids are unique (primary keys).  The row may be `waived` or
`applied`; either way it exists and is never duplicated. -/
theorem late_fee_idempotency (s : St) (today : Date) (leaseFilter : Option Nat)
    (force1 force2 : Bool) (p : PaymentR) :
    (0 < feeCount s p.id →
      feeCount (apply_late_fees s today leaseFilter force1) p.id = feeCount s p.id) ∧
    (feeCount s p.id = 0 →
      feeCount (apply_late_fees (apply_late_fees s today leaseFilter force1) today
        leaseFilter force2) p.id ≤ 1) ∧
    (feeCount s p.id = 0 → p ∈ s.payments → p.status = "pending" →
      6 ≤ today.toOrd - p.dueDate.toOrd →
      (s.payments.map (·.id)).Nodup →
      (∃ lease ∈ s.leases, lease.id = p.leaseId ∧ leaseInScope leaseFilter lease = true) →
      feeCount (apply_late_fees (apply_late_fees s today leaseFilter force1) today
        leaseFilter force2) p.id = 1) := by
  refine ⟨fun h => apply_feeCount_ge s today leaseFilter force1 p.id h, ?_, ?_⟩
  · intro h0
    have h1 := apply_feeCount_le s today leaseFilter force1 p.id
    have h2 := apply_feeCount_le (apply_late_fees s today leaseFilter force1) today
      leaseFilter force2 p.id
    omega
  · intro h0 hmem hpend h6 hnodup ⟨lease, hl, hlid, hscope⟩
    have hpos : 0 < feeCount (apply_late_fees s today leaseFilter force1) p.id :=
      apply_reaches s today leaseFilter force1 p lease hl hscope hlid.symm hmem hpend
        hnodup h6
    have hle := apply_feeCount_le s today leaseFilter force1 p.id
    have heq := apply_feeCount_ge (apply_late_fees s today leaseFilter force1) today
      leaseFilter force2 p.id hpos
    omega

/-- Ledger for the C1 witness: the same shape as `stC1` but with the payment
10 days past due, outside the grace period. -/
def stC1w : St :=
  { tenants := [{ id := 1, businessId := 1, firstName := "Ada", lastName := "One",
                  email := "ada@business1.example", isActive := true, creditScore := some 700 }],
    leases := [{ id := 1, tenantId := 1, propertyId := 1, monthlyRent := 1200,
                 startDate := ⟨2025, 1, 1⟩, endDate := ⟨2026, 12, 31⟩,
                 rentDueDay := 1, status := "active" }],
    payments := [{ id := 1, leaseId := 1, amount := 1200, paymentType := "rent",
                   paymentDate := ⟨2026, 1, 10⟩, dueDate := ⟨2026, 1, 10⟩,
                   status := "pending" }],
    lateFees := [], reminders := [], properties := [{ id := 1, title := "Unit A" }],
    nextId := 10 }

/-- The overdue pending payment of `stC1w`. -/
def payC1w : PaymentR :=
  { id := 1, leaseId := 1, amount := 1200, paymentType := "rent",
    paymentDate := ⟨2026, 1, 10⟩, dueDate := ⟨2026, 1, 10⟩, status := "pending" }

/-- The active lease of `stC1w`. -/
def leaseC1w : LeaseR :=
  { id := 1, tenantId := 1, propertyId := 1, monthlyRent := 1200,
    startDate := ⟨2025, 1, 1⟩, endDate := ⟨2026, 12, 31⟩,
    rentDueDay := 1, status := "active" }

/-- `stC1w` with an existing (waived) LateFee row for payment 1, exercising
the no-second-fee part of the amended claim. -/
def stC1f : St :=
  { stC1w with
    lateFees := [{ id := 5, paymentId := 1, amount := 50, daysOverdue := 4,
                   status := "waived", waiveReason := "courtesy" }] }

theorem late_fee_idempotency_witness :
    feeCount (apply_late_fees (apply_late_fees stC1w ⟨2026, 1, 20⟩ none true)
      ⟨2026, 1, 20⟩ none false) payC1w.id = 1 ∧
    feeCount (apply_late_fees stC1f ⟨2026, 1, 20⟩ none true) payC1w.id =
      feeCount stC1f payC1w.id :=
  ⟨(late_fee_idempotency stC1w ⟨2026, 1, 20⟩ none true false payC1w).2.2
      (by decide) (by decide) (by decide) (by decide) (by decide)
      ⟨leaseC1w, by decide, by decide, by decide⟩,
   (late_fee_idempotency stC1f ⟨2026, 1, 20⟩ none true false payC1w).1 (by decide)⟩

end FinMgmt
